import Mathlib

/-!
Verification development for the session runtime engine of the
speaking-meeting-bot repository: the talk-balance tracker
(core/balance_tracker.py), the intervention policy engine
(core/intervention_engine.py) and the per-session scheduler loop with its
timer state (core/session_store.py).

Modelling conventions: wall-clock instants and durations are rational
numbers of seconds (datetime values become an explicit `now : Rat`
argument threaded through every operation that reads the clock);
millisecond counters stay integers as in the source; Python `int(x)`
truncation toward zero on a rational is `ratTrunc`; exact rational
arithmetic stands in for the floating-point division of the source.
Mutating methods become pure functions from state to state, returning
their Python return value alongside the updated state.
-/

namespace Diadi

/-- Truncation of a rational toward zero, the semantics of Python int(). -/
def ratTrunc (q : ℚ) : ℤ :=
  Int.tdiv q.num (q.den : ℤ)

/-- Association-list lookup used to model Python dict reads. -/
def alookup {α β : Type} [DecidableEq α] (l : List (α × β)) (k : α) : Option β :=
  match l with
  | [] => none
  | (k', v) :: rest => if k' = k then some v else alookup rest k

/-- Association-list write used to model Python dict assignment: replaces the
first binding of the key if present, otherwise appends (insertion order of a
Python dict). -/
def aset {α β : Type} [DecidableEq α] (l : List (α × β)) (k : α) (v : β) :
    List (α × β) :=
  match l with
  | [] => [(k, v)]
  | (k', v') :: rest => if k' = k then (k', v) :: rest else (k', v') :: aset rest k v

/-! ## BalanceTracker (core/balance_tracker.py) -/

/-- Metrics for a single speaker, mirroring SpeakerMetrics. -/
structure SpeakerMetrics where
  total_speaking_time_ms : ℤ
  last_spoke_at : Option ℚ
  is_speaking : Bool
deriving DecidableEq

/-- Default-constructed SpeakerMetrics(). -/
def SpeakerMetrics.init : SpeakerMetrics :=
  { total_speaking_time_ms := 0, last_spoke_at := none, is_speaking := false }

/-- Result of a balance calculation, mirroring BalanceResult. -/
structure BalanceResult where
  participant_a_id : Option String
  participant_a_percentage : ℤ
  participant_b_id : Option String
  participant_b_percentage : ℤ
  status : String
  waiting_for_speakers : Bool
deriving DecidableEq

/-- State of a BalanceTracker instance; the speakers dict is an insertion
ordered association list, as in a Python dict. -/
structure TrackerState where
  speakers : List (String × SpeakerMetrics)
  session_start : ℚ
  imbalance_start : Option ℚ
  severe_imbalance_start : Option ℚ
deriving DecidableEq

def MILD_IMBALANCE_THRESHOLD : ℤ := 35

def SEVERE_IMBALANCE_THRESHOLD : ℤ := 40

def MILD_IMBALANCE_DURATION : ℚ := 180

def SEVERE_IMBALANCE_DURATION : ℚ := 300

/-- BalanceTracker constructor. -/
def TrackerState.init (session_start : ℚ) : TrackerState :=
  { speakers := [], session_start := session_start,
    imbalance_start := none, severe_imbalance_start := none }

/-- BalanceTracker.update_speaker. -/
def update_speaker (st : TrackerState) (speaker_id : String) (is_speaking : Bool)
    (now : ℚ) : TrackerState :=
  let speakers :=
    if (alookup st.speakers speaker_id).isSome then st.speakers
    else st.speakers ++ [(speaker_id, SpeakerMetrics.init)]
  let m := (alookup speakers speaker_id).getD SpeakerMetrics.init
  let m' :=
    if is_speaking && !m.is_speaking then
      { m with is_speaking := true, last_spoke_at := some now }
    else if !is_speaking && m.is_speaking then
      { m with
        is_speaking := false,
        total_speaking_time_ms := m.total_speaking_time_ms +
          (match m.last_spoke_at with
           | some l => ratTrunc ((now - l) * 1000)
           | none => 0) }
    else m
  { st with speakers := aset speakers speaker_id m' }

/-- BalanceTracker.add_speaking_duration. -/
def add_speaking_duration (st : TrackerState) (speaker_id : String)
    (duration_ms : ℤ) : TrackerState :=
  if duration_ms ≤ 0 then st
  else
    let speakers :=
      if (alookup st.speakers speaker_id).isSome then st.speakers
      else st.speakers ++ [(speaker_id, SpeakerMetrics.init)]
    let m := (alookup speakers speaker_id).getD SpeakerMetrics.init
    let m' := { m with total_speaking_time_ms := m.total_speaking_time_ms + duration_ms }
    { st with speakers := aset speakers speaker_id m' }

/-- BalanceTracker.get_current_speaking_time. -/
def get_current_speaking_time (st : TrackerState) (now : ℚ) (speaker_id : String) : ℤ :=
  match alookup st.speakers speaker_id with
  | none => 0
  | some m =>
    m.total_speaking_time_ms +
      (if m.is_speaking then
        (match m.last_spoke_at with
         | some l => ratTrunc ((now - l) * 1000)
         | none => 0)
       else 0)

/-- Status classification of get_balance on the percentage difference. -/
def statusOfDiff (diff : ℤ) : String :=
  if diff ≤ MILD_IMBALANCE_THRESHOLD then "balanced"
  else if diff ≤ SEVERE_IMBALANCE_THRESHOLD then "mild_imbalance"
  else "severe_imbalance"

/-- The times list computed inside get_balance: the current speaking time of
every recorded speaker, in dict insertion order. -/
def balanceTimes (st : TrackerState) (now : ℚ) : List ℤ :=
  (st.speakers.map (fun p => p.1)).map (get_current_speaking_time st now)

/-- The total speaking time computed inside get_balance. -/
def balanceTotal (st : TrackerState) (now : ℚ) : ℤ :=
  (balanceTimes st now).sum

/-- The percentages list computed inside get_balance, before the
sum-to-100 adjustment. -/
def balancePercentages (st : TrackerState) (now : ℚ) : List ℤ :=
  if balanceTotal st now = 0 then [(50 : ℤ), 50]
  else (balanceTimes st now).map
    (fun t : ℤ => ratTrunc (((t : ℚ) * 100) / ((balanceTotal st now : ℤ) : ℚ)))

/-- The first percentage of get_balance. -/
def balanceP0 (st : TrackerState) (now : ℚ) : ℤ :=
  (balancePercentages st now).getD 0 0

/-- The second percentage of get_balance before the adjustment. -/
def balanceP1raw (st : TrackerState) (now : ℚ) : ℤ :=
  (balancePercentages st now).getD 1 0

/-- The second percentage of get_balance after the adjustment that forces
the two percentages to sum to 100. -/
def balanceP1 (st : TrackerState) (now : ℚ) : ℤ :=
  if balanceP0 st now + balanceP1raw st now ≠ 100 then 100 - balanceP0 st now
  else balanceP1raw st now

/-- BalanceTracker.get_balance. -/
def get_balance (st : TrackerState) (now : ℚ) : BalanceResult :=
  if st.speakers.length < 2 then
    { participant_a_id := none, participant_a_percentage := 50,
      participant_b_id := none, participant_b_percentage := 50,
      status := "balanced", waiting_for_speakers := true }
  else
    { participant_a_id := some ((st.speakers.map (fun p => p.1)).getD 0 ""),
      participant_a_percentage := balanceP0 st now,
      participant_b_id := some ((st.speakers.map (fun p => p.1)).getD 1 ""),
      participant_b_percentage := balanceP1 st now,
      status := statusOfDiff |balanceP0 st now - balanceP1 st now|,
      waiting_for_speakers := false }

/-- Second half of BalanceTracker.check_intervention_trigger: the
mild-or-worse imbalance branch reached when the severe branch does not
return early. -/
def mildTriggerBranch (st : TrackerState) (now : ℚ) (status : String) :
    Option String × TrackerState :=
  if status = "mild_imbalance" ∨ status = "severe_imbalance" then
    match st.imbalance_start with
    | none => (none, { st with imbalance_start := some now })
    | some s =>
      if now - s > MILD_IMBALANCE_DURATION then (some "balance", st)
      else (none, st)
  else (none, { st with imbalance_start := none })

/-- BalanceTracker.check_intervention_trigger. -/
def check_intervention_trigger (st : TrackerState) (now : ℚ) :
    Option String × TrackerState :=
  if (get_balance st now).waiting_for_speakers then (none, st)
  else if (get_balance st now).status = "severe_imbalance" then
    match st.severe_imbalance_start with
    | none =>
      mildTriggerBranch { st with severe_imbalance_start := some now } now
        (get_balance st now).status
    | some s =>
      if now - s > SEVERE_IMBALANCE_DURATION then (some "severe_balance", st)
      else mildTriggerBranch st now (get_balance st now).status
  else
    mildTriggerBranch { st with severe_imbalance_start := none } now
      (get_balance st now).status

/-- BalanceTracker.get_dominant_speaker. -/
def get_dominant_speaker (st : TrackerState) (now : ℚ) : Option String :=
  let balance := get_balance st now
  if balance.waiting_for_speakers || balance.status = "balanced" then none
  else if balance.participant_a_percentage > balance.participant_b_percentage then
    balance.participant_a_id
  else balance.participant_b_id

/-- BalanceTracker.get_quiet_speaker. -/
def get_quiet_speaker (st : TrackerState) (now : ℚ) : Option String :=
  let balance := get_balance st now
  if balance.waiting_for_speakers || balance.status = "balanced" then none
  else if balance.participant_a_percentage < balance.participant_b_percentage then
    balance.participant_a_id
  else balance.participant_b_id

/-- BalanceTracker.reset_intervention_timers. -/
def reset_intervention_timers (st : TrackerState) : TrackerState :=
  { st with imbalance_start := none, severe_imbalance_start := none }

/-! ## InterventionEngine (core/intervention_engine.py) -/

/-- Types of AI interventions (InterventionType). -/
inductive InterventionType where
  | balance
  | silence
  | goal_drift
  | time_warning
  | escalation
  | icebreaker
deriving DecidableEq

/-- Delivery channel of an intervention (InterventionModality). -/
inductive InterventionModality where
  | visual
  | voice
deriving DecidableEq

/-- Priority levels for intervention queuing (InterventionPriority). -/
inductive InterventionPriority where
  | critical
  | high
  | medium
  | low
deriving DecidableEq

/-- An intervention record; the uuid and the free-form metadata dict of the
source carry no policy content and are not modelled. -/
structure Intervention where
  type : InterventionType
  modality : InterventionModality
  message : String
  target_participant : Option String
  priority : InterventionPriority
  created_at : ℚ
deriving DecidableEq

/-- The enriched balance result dict handed to evaluate by the scheduler:
the fields the engine actually reads, each optional like a dict .get. -/
structure BalanceInput where
  quiet_speaker : Option String
  a_name : Option String
  a_percentage : Option ℤ
  b_name : Option String
  b_percentage : Option ℤ
deriving DecidableEq

/-- Mutable state of an InterventionEngine instance. -/
structure EngineState where
  session_start : ℚ
  session_duration : ℚ
  interrupt_authority : Bool
  direct_inquiry : Bool
  silence_detection : Bool
  last_intervention : Option ℚ
  last_intervention_by_type : List (InterventionType × ℚ)
  intervention_count : ℕ
  intervention_history : List Intervention
  is_mid_sentence : Bool
  emotional_disclosure : Bool
  repair_in_progress : Bool
  crisis_detected : Bool
  is_paused : Bool
  tension_start : Option ℚ
  goal_drift_start : Option ℚ
  silence_start : Option ℚ
  time_warnings_sent : List ℚ
  participant_names : List (String × String)
deriving DecidableEq

def MIN_INTERVENTION_INTERVAL : ℚ := 30

def COOLDOWN_PERIOD : ℚ := 120

def SILENCE_THRESHOLD : ℚ := 15

def FIRST_MINUTES_QUIET : ℚ := 180

def GOAL_DRIFT_THRESHOLD : ℚ := 120

def TIME_WARNING_5_MIN : ℚ := 300

def TIME_WARNING_2_MIN : ℚ := 120

def TIME_WARNING_1_MIN : ℚ := 60

def TENSION_THRESHOLD : ℚ := 7/10

def TENSION_DURATION : ℚ := 30

/-- InterventionEngine constructor; the three booleans are the
facilitator_config entries with their source defaults applied by the caller. -/
def EngineState.init (session_start : ℚ) (session_duration_minutes : ℤ)
    (interrupt_authority direct_inquiry silence_detection : Bool) : EngineState :=
  { session_start := session_start
    session_duration := (session_duration_minutes : ℚ) * 60
    interrupt_authority := interrupt_authority
    direct_inquiry := direct_inquiry
    silence_detection := silence_detection
    last_intervention := none
    last_intervention_by_type := []
    intervention_count := 0
    intervention_history := []
    is_mid_sentence := false
    emotional_disclosure := false
    repair_in_progress := false
    crisis_detected := false
    is_paused := false
    tension_start := none
    goal_drift_start := none
    silence_start := none
    time_warnings_sent := []
    participant_names := [] }

/-- InterventionEngine.set_participant_names. -/
def set_participant_names (s : EngineState) (names : List (String × String)) :
    EngineState :=
  { s with participant_names := names }

/-- InterventionEngine.set_blocker. -/
def set_blocker (s : EngineState) (blocker : String) (active : Bool) : EngineState :=
  if blocker = "mid_sentence" then { s with is_mid_sentence := active }
  else if blocker = "emotional_disclosure" then { s with emotional_disclosure := active }
  else if blocker = "repair_in_progress" then { s with repair_in_progress := active }
  else if blocker = "crisis_detected" then { s with crisis_detected := active }
  else s

/-- InterventionEngine.pause. -/
def pauseEngine (s : EngineState) : EngineState :=
  { s with is_paused := true }

/-- InterventionEngine.resume. -/
def resumeEngine (s : EngineState) : EngineState :=
  { s with is_paused := false, tension_start := none, goal_drift_start := none,
           silence_start := none }

/-- InterventionEngine.get_session_elapsed. -/
def get_session_elapsed (s : EngineState) (now : ℚ) : ℚ :=
  now - s.session_start

/-- InterventionEngine.get_time_remaining. -/
def get_time_remaining (s : EngineState) (now : ℚ) : ℚ :=
  max (s.session_duration - get_session_elapsed s now) 0

/-- Global cooldown test inside can_intervene. -/
def globalCooldownActive (s : EngineState) (now : ℚ) : Bool :=
  match s.last_intervention with
  | some l => decide (now - l < MIN_INTERVENTION_INTERVAL)
  | none => false

/-- Per-type cooldown test inside can_intervene. -/
def typeCooldownActive (s : EngineState) (now : ℚ) (oty : Option InterventionType) :
    Bool :=
  match oty with
  | none => false
  | some ty =>
    match alookup s.last_intervention_by_type ty with
    | some l => decide (now - l < COOLDOWN_PERIOD)
    | none => false

/-- InterventionEngine.can_intervene. -/
def canIntervene (s : EngineState) (now : ℚ) (oty : Option InterventionType) : Bool :=
  if s.is_paused then false
  else if oty ≠ some InterventionType.icebreaker ∧
      get_session_elapsed s now < FIRST_MINUTES_QUIET then false
  else if globalCooldownActive s now then false
  else if typeCooldownActive s now oty then false
  else if s.is_mid_sentence ∧ s.interrupt_authority = false then false
  else if s.emotional_disclosure then false
  else if s.repair_in_progress then false
  else if s.crisis_detected then false
  else true

/-- InterventionEngine._create_intervention: builds the record and updates
the recording state. -/
def createIntervention (s : EngineState) (now : ℚ) (ty : InterventionType)
    (modality : InterventionModality) (message : String)
    (target_participant : Option String) (priority : InterventionPriority) :
    Intervention × EngineState :=
  let i : Intervention :=
    { type := ty, modality := modality, message := message,
      target_participant := target_participant, priority := priority,
      created_at := now }
  (i, { s with
        last_intervention := some now
        last_intervention_by_type := aset s.last_intervention_by_type ty now
        intervention_count := s.intervention_count + 1
        intervention_history := s.intervention_history ++ [i] })

/-- InterventionEngine._get_quiet_participant_name; the truthiness test on
quiet_id in the source rejects both None and the empty string. -/
def getQuietParticipantName (s : EngineState) (br : Option BalanceInput) : String :=
  match br with
  | none => "your partner"
  | some b =>
    let fallback :=
      let a_pct := b.a_percentage.getD 50
      let b_pct := b.b_percentage.getD 50
      if a_pct < b_pct then b.a_name.getD "your partner"
      else if b_pct < a_pct then b.b_name.getD "your partner"
      else "your partner"
    match b.quiet_speaker with
    | some quiet_id =>
      if quiet_id ≠ "" then
        match alookup s.participant_names quiet_id with
        | some n => n
        | none => fallback
      else fallback
    | none => fallback

/-- InterventionEngine._check_escalation. -/
def checkEscalation (s : EngineState) (now : ℚ) (tension_score : ℚ) :
    Option Intervention × EngineState :=
  if tension_score > TENSION_THRESHOLD then
    match s.tension_start with
    | none => (none, { s with tension_start := some now })
    | some t =>
      if now - t ≥ TENSION_DURATION then
        if canIntervene s now (some InterventionType.escalation) then
          let (i, s') := createIntervention s now InterventionType.escalation
            InterventionModality.voice
            "I sense some tension rising. Would a 2-minute break help?"
            none InterventionPriority.critical
          (some i, s')
        else (none, s)
      else (none, s)
  else (none, { s with tension_start := none })

/-- InterventionEngine._check_severe_balance. -/
def checkSevereBalance (s : EngineState) (now : ℚ) (balance_status : String)
    (balance_result : Option BalanceInput) : Option Intervention × EngineState :=
  if balance_status ≠ "severe_imbalance" then (none, s)
  else if !canIntervene s now (some InterventionType.balance) then (none, s)
  else
    let quiet_name := getQuietParticipantName s balance_result
    let message := "I notice the conversation has been a bit one-sided. " ++
      quiet_name ++ ", would you like to share your thoughts?"
    let (i, s') := createIntervention s now InterventionType.balance
      InterventionModality.voice message
      (match balance_result with
       | some b => b.quiet_speaker
       | none => none)
      InterventionPriority.high
    (some i, s')

/-- InterventionEngine._check_time_warning; the three thresholds are tried in
order and the message template for the 5-minute one mentions the goal. -/
def checkTimeWarning (s : EngineState) (now : ℚ) (session_goal : String) :
    Option Intervention × EngineState :=
  if !canIntervene s now (some InterventionType.time_warning) then (none, s)
  else
    let remaining := get_time_remaining s now
    if remaining ≤ TIME_WARNING_5_MIN ∧ TIME_WARNING_5_MIN ∉ s.time_warnings_sent then
      let topic := if session_goal = "" then "your goal" else session_goal
      let message := "You have about 5 minutes left. You mentioned wanting to discuss "
        ++ topic ++ " - would you like to touch on that?"
      let s1 := { s with time_warnings_sent := s.time_warnings_sent ++ [TIME_WARNING_5_MIN] }
      let (i, s') := createIntervention s1 now InterventionType.time_warning
        InterventionModality.visual message none InterventionPriority.medium
      (some i, s')
    else if remaining ≤ TIME_WARNING_2_MIN ∧ TIME_WARNING_2_MIN ∉ s.time_warnings_sent then
      let s1 := { s with time_warnings_sent := s.time_warnings_sent ++ [TIME_WARNING_2_MIN] }
      let (i, s') := createIntervention s1 now InterventionType.time_warning
        InterventionModality.visual "About 2 minutes remaining." none
        InterventionPriority.medium
      (some i, s')
    else if remaining ≤ TIME_WARNING_1_MIN ∧ TIME_WARNING_1_MIN ∉ s.time_warnings_sent then
      let s1 := { s with time_warnings_sent := s.time_warnings_sent ++ [TIME_WARNING_1_MIN] }
      let (i, s') := createIntervention s1 now InterventionType.time_warning
        InterventionModality.visual "One minute left to wrap up." none
        InterventionPriority.medium
      (some i, s')
    else (none, s)

/-- InterventionEngine._check_silence. -/
def checkSilence (s : EngineState) (now : ℚ) (silence_duration : ℚ) :
    Option Intervention × EngineState :=
  if silence_duration < SILENCE_THRESHOLD then (none, { s with silence_start := none })
  else if !canIntervene s now (some InterventionType.silence) then (none, s)
  else
    let (i, s') := createIntervention s now InterventionType.silence
      InterventionModality.visual "Taking a moment..." none InterventionPriority.low
    (some i, s')

/-- InterventionEngine._check_mild_balance. -/
def checkMildBalance (s : EngineState) (now : ℚ) (balance_status : String)
    (balance_result : Option BalanceInput) : Option Intervention × EngineState :=
  if balance_status ≠ "mild_imbalance" then (none, s)
  else if !canIntervene s now (some InterventionType.balance) then (none, s)
  else
    let quiet_name := getQuietParticipantName s balance_result
    let message := quiet_name ++ " hasn't shared their perspective yet"
    let (i, s') := createIntervention s now InterventionType.balance
      InterventionModality.visual message
      (match balance_result with
       | some b => b.quiet_speaker
       | none => none)
      InterventionPriority.medium
    (some i, s')

/-- InterventionEngine._check_goal_drift. -/
def checkGoalDrift (s : EngineState) (now : ℚ) (is_on_goal : Bool)
    (session_goal : String) : Option Intervention × EngineState :=
  if !is_on_goal then
    match s.goal_drift_start with
    | none => (none, { s with goal_drift_start := some now })
    | some t =>
      if now - t ≥ GOAL_DRIFT_THRESHOLD then
        if canIntervene s now (some InterventionType.goal_drift) then
          let (i, s') := createIntervention s now InterventionType.goal_drift
            InterventionModality.visual "Shall we return to the topic?" none
            InterventionPriority.low
          (some i, s')
        else (none, s)
      else (none, s)
  else (none, { s with goal_drift_start := none })

/-- Truthiness of the silence_duration argument in evaluate: None and a zero
timedelta are both falsy in Python. -/
def silenceTruthy (silence_duration : Option ℚ) : Bool :=
  match silence_duration with
  | none => false
  | some d => decide (d ≠ 0)

/-- InterventionEngine.evaluate: the priority chain, threading the mutated
state through each check and stopping at the first hit. -/
def evaluate (s : EngineState) (now : ℚ) (balance_status : String)
    (balance_result : Option BalanceInput) (silence_duration : Option ℚ)
    (tension_score : ℚ) (is_on_goal : Bool) (session_goal : String) :
    Option Intervention × EngineState :=
  match checkEscalation s now tension_score with
  | (some i, s1) => (some i, s1)
  | (none, s1) =>
    match checkSevereBalance s1 now balance_status balance_result with
    | (some i, s2) => (some i, s2)
    | (none, s2) =>
      match checkTimeWarning s2 now session_goal with
      | (some i, s3) => (some i, s3)
      | (none, s3) =>
        match (if s3.silence_detection && silenceTruthy silence_duration then
                 checkSilence s3 now (silence_duration.getD 0)
               else (none, s3)) with
        | (some i, s4) => (some i, s4)
        | (none, s4) =>
          match checkMildBalance s4 now balance_status balance_result with
          | (some i, s5) => (some i, s5)
          | (none, s5) =>
            match checkGoalDrift s5 now is_on_goal session_goal with
            | (some i, s6) => (some i, s6)
            | (none, s6) => (none, s6)

/-- InterventionEngine.create_icebreaker. -/
def createIcebreaker (s : EngineState) (now : ℚ) (session_goal : String) :
    Option Intervention × EngineState :=
  if canIntervene s now (some InterventionType.icebreaker) then
    let (i, s') := createIntervention s now InterventionType.icebreaker
      InterventionModality.voice
      ("To start us off: What would a successful outcome " ++
       "from this conversation look like for each of you?")
      none InterventionPriority.medium
    (some i, s')
  else (none, s)

/-! ## SessionTimerState and the scheduler loop (core/session_store.py) -/

/-- Runtime timer state of a session (SessionTimerState). -/
structure SessionTimerState where
  started_at : ℚ
  paused_at : Option ℚ
  paused_seconds : ℚ
deriving DecidableEq

/-- SessionTimerState.elapsed_seconds. -/
def SessionTimerState.elapsed_seconds (st : SessionTimerState) (now : ℚ) : ℚ :=
  max ((st.paused_at.getD now - st.started_at) - st.paused_seconds) 0

/-- SessionTimerState.pause. -/
def SessionTimerState.pause (st : SessionTimerState) (now : ℚ) : SessionTimerState :=
  match st.paused_at with
  | none => { st with paused_at := some now }
  | some _ => st

/-- SessionTimerState.resume. -/
def SessionTimerState.resume (st : SessionTimerState) (now : ℚ) : SessionTimerState :=
  match st.paused_at with
  | some p => { st with paused_seconds := st.paused_seconds + (now - p), paused_at := none }
  | none => st

/-- The slice of a stored Session the scheduler tick reads: the goal and the
participant id-to-name mapping. -/
structure SessionInfo where
  goal : String
  participant_names : List (String × String)
deriving DecidableEq

/-- Per-session slice of the module-level registries that one scheduler task
reads and writes. -/
structure RuntimeState where
  timer : Option SessionTimerState
  tracker : Option TrackerState
  engine : Option EngineState
  session : Option SessionInfo
  is_speaking : Bool
  last_speech_at : Option ℚ
deriving DecidableEq

/-- Events broadcast by the scheduler tick; only the payload fields the
claims mention are carried. -/
inductive SessionEvent where
  | time_remaining (minutes seconds total_seconds_remaining percent_complete : ℤ)
  | balance_update (result : BalanceResult)
  | intervention (i : Intervention)
deriving DecidableEq

/-- The remaining-seconds computation of a tick. -/
def remainingSeconds (duration_seconds : ℤ) (elapsed : ℚ) : ℤ :=
  max (duration_seconds - ratTrunc elapsed) 0

/-- The percent-complete computation of a tick. -/
def percentComplete (duration_seconds : ℤ) (elapsed : ℚ) : ℤ :=
  if 0 < duration_seconds then
    min (ratTrunc (elapsed / (duration_seconds : ℚ) * 100)) 100
  else 0

/-- get_balance_snapshot restricted to the data the tick consumes: present
only when both the tracker and the session exist. -/
def balanceSnapshot (rt : RuntimeState) (now : ℚ) : Option BalanceResult :=
  match rt.tracker, rt.session with
  | some tr, some _ => some (get_balance tr now)
  | _, _ => none

/-- The enriched balance_result dict built inside the tick from the snapshot
plus the quiet and dominant speaker ids. -/
def enrichBalance (rt : RuntimeState) (tr : TrackerState) (now : ℚ)
    (b : BalanceResult) : BalanceInput :=
  let names := match rt.session with
    | some si => si.participant_names
    | none => []
  { quiet_speaker := get_quiet_speaker tr now
    a_name := some (((b.participant_a_id.bind (alookup names)).getD "Participant A"))
    a_percentage := some b.participant_a_percentage
    b_name := some (((b.participant_b_id.bind (alookup names)).getD "Participant B"))
    b_percentage := some b.participant_b_percentage }

/-- The session goal the tick passes to evaluate. -/
def sessionGoalOf (rt : RuntimeState) : String :=
  match rt.session with
  | some si => si.goal
  | none => ""

/-- The balance-related inputs of one tick: the balance_status string
derived from check_intervention_trigger, the enriched balance_result, and
the tracker as mutated by the trigger call. -/
def schedulerBalanceArgs (rt : RuntimeState) (now : ℚ)
    (snapshot : Option BalanceResult) :
    String × Option BalanceInput × Option TrackerState :=
  match rt.tracker with
  | none => ("balanced", none, none)
  | some tr =>
    let br : Option BalanceInput :=
      match snapshot with
      | some b =>
        if b.waiting_for_speakers then none else some (enrichBalance rt tr now b)
      | none => none
    let trig := check_intervention_trigger tr now
    let status :=
      if trig.1 = some "balance" then "mild_imbalance"
      else if trig.1 = some "severe_balance" then "severe_imbalance"
      else "balanced"
    (status, br, some trig.2)

/-- The silence duration the tick passes to evaluate: only measured when
nobody is currently speaking. -/
def schedulerSilenceDuration (rt : RuntimeState) (now : ℚ) : Option ℚ :=
  if rt.is_speaking then none
  else rt.last_speech_at.map (fun l => now - l)

/-- The intervention-engine section of one tick: returns the emitted
intervention events and the updated tracker and engine; evaluate is called
with tension_score fixed at 0 and is_on_goal fixed at true. -/
def engineStep (rt : RuntimeState) (now : ℚ) (snapshot : Option BalanceResult) :
    List SessionEvent × Option TrackerState × Option EngineState :=
  match rt.engine with
  | none => ([], rt.tracker, none)
  | some eng =>
    match evaluate eng now (schedulerBalanceArgs rt now snapshot).1
        (schedulerBalanceArgs rt now snapshot).2.1
        (schedulerSilenceDuration rt now) 0 true (sessionGoalOf rt) with
    | (some i, eng2) =>
      ([SessionEvent.intervention i],
       (if i.type = InterventionType.balance then
          (schedulerBalanceArgs rt now snapshot).2.2.map reset_intervention_timers
        else (schedulerBalanceArgs rt now snapshot).2.2),
       some eng2)
    | (none, eng2) => ([], (schedulerBalanceArgs rt now snapshot).2.2, some eng2)

/-- One iteration of the while-loop body of _run_session_timer: the emitted
events in order, whether the loop continues, and the updated runtime state. -/
def tick (duration_seconds : ℤ) (now : ℚ) (rt : RuntimeState) :
    List SessionEvent × Bool × RuntimeState :=
  match rt.timer with
  | none => ([], false, rt)
  | some st =>
    if st.paused_at.isSome then ([], true, rt)
    else
      let elapsed := st.elapsed_seconds now
      let remaining := remainingSeconds duration_seconds elapsed
      let percent := percentComplete duration_seconds elapsed
      let timeEvent := SessionEvent.time_remaining (Int.ediv remaining 60)
        (Int.emod remaining 60) remaining percent
      let snapshot := balanceSnapshot rt now
      let balanceEvents :=
        match snapshot with
        | some b => if b.waiting_for_speakers then [] else [SessionEvent.balance_update b]
        | none => []
      let es := engineStep rt now snapshot
      (timeEvent :: (balanceEvents ++ es.1),
       decide (0 < remaining),
       { rt with tracker := es.2.1, engine := es.2.2 })

/-- The duration_seconds computation at the top of _run_session_timer. -/
def durationSecondsOf (duration_minutes : ℤ) : ℤ :=
  max duration_minutes 0 * 60

/-- The scheduler loop run over a list of tick instants: collects every
emitted event, stopping when a tick signals termination. -/
def runLoop (duration_seconds : ℤ) (nows : List ℚ) (rt : RuntimeState) :
    List SessionEvent :=
  match nows with
  | [] => []
  | n :: rest =>
    let r := tick duration_seconds n rt
    r.1 ++ (if r.2.1 then runLoop duration_seconds rest r.2.2 else [])

/-- _run_session_timer over a list of tick instants. -/
def runSessionTimer (duration_minutes : ℤ) (nows : List ℚ) (rt : RuntimeState) :
    List SessionEvent :=
  runLoop (durationSecondsOf duration_minutes) nows rt

/-! ## Engine call traces

One InterventionEngine instance is driven by an arbitrary interleaving of
its public mutating entry points; a trace is a list of such calls. -/

/-- A single call into an InterventionEngine instance. -/
inductive EngineOp where
  | evalOp (now : ℚ) (balance_status : String) (balance_result : Option BalanceInput)
      (silence_duration : Option ℚ) (tension_score : ℚ) (is_on_goal : Bool)
      (session_goal : String)
  | icebreakerOp (now : ℚ) (session_goal : String)
  | pauseOp
  | resumeOp
  | blockerOp (blocker : String) (active : Bool)
  | namesOp (names : List (String × String))

/-- Apply one call to the engine state, discarding the returned value. -/
def applyOp (s : EngineState) : EngineOp → EngineState
  | EngineOp.evalOp now bs br sd ts g goal => (evaluate s now bs br sd ts g goal).2
  | EngineOp.icebreakerOp now goal => (createIcebreaker s now goal).2
  | EngineOp.pauseOp => pauseEngine s
  | EngineOp.resumeOp => resumeEngine s
  | EngineOp.blockerOp b a => set_blocker s b a
  | EngineOp.namesOp names => set_participant_names s names

/-- Run a trace of calls against an engine state. -/
def runOps (s : EngineState) (ops : List EngineOp) : EngineState :=
  ops.foldl applyOp s

/-- A tracker with two recorded speakers at 1000ms and 0ms of speaking time:
its balance status is severely imbalanced at every instant. -/
def cTracker1 : TrackerState :=
  { speakers :=
      [("A", { total_speaking_time_ms := 1000, last_spoke_at := none, is_speaking := false }),
       ("B", { total_speaking_time_ms := 0, last_spoke_at := none, is_speaking := false })],
    session_start := 0, imbalance_start := none, severe_imbalance_start := none }

/-- A tracker with exactly one recorded speaker. -/
def c9tracker : TrackerState :=
  { speakers := [("A", SpeakerMetrics.init)], session_start := 0,
    imbalance_start := none, severe_imbalance_start := none }

/-! ## Engine check-function frame lemmas

Every check of the priority chain either returns none, touching at most its
own duration timer, or fires: it passes can_intervene for its type and
records the intervention through the shared _create_intervention update. -/

/-- The engine states s and s2 agree on every field except the three
duration-trigger timers. -/
def onlyTimersDiffer (s s2 : EngineState) : Prop :=
  s2 = { s with tension_start := s2.tension_start,
                goal_drift_start := s2.goal_drift_start,
                silence_start := s2.silence_start }

/-- A check has fired: the result carries an intervention of the check type
created at the call instant, the can_intervene gate passed, and the
recording state was updated exactly as _create_intervention does. -/
def recordedFire (ty : InterventionType) (s : EngineState) (now : ℚ)
    (r : Option Intervention × EngineState) : Prop :=
  ∃ i : Intervention, r.1 = some i ∧ i.type = ty ∧ i.created_at = now ∧
    canIntervene s now (some ty) = true ∧
    r.2.intervention_history = s.intervention_history ++ [i] ∧
    r.2.last_intervention = some now ∧
    r.2.last_intervention_by_type = aset s.last_intervention_by_type ty now ∧
    (if ty = InterventionType.time_warning then
      ∃ w, w ∉ s.time_warnings_sent ∧
        r.2.time_warnings_sent = s.time_warnings_sent ++ [w]
     else r.2.time_warnings_sent = s.time_warnings_sent)

/-- Outcome of a single check of the priority chain. -/
def checkSpec (ty : InterventionType) (s : EngineState) (now : ℚ)
    (r : Option Intervention × EngineState) : Prop :=
  (r.1 = none ∧ onlyTimersDiffer s r.2) ∨ recordedFire ty s now r

/-- The six candidate checks of evaluate, in their priority order, with the
silence gate of the evaluate body included on the fourth entry. -/
def checkList (now : ℚ) (bs : String) (br : Option BalanceInput) (sd : Option ℚ)
    (ts : ℚ) (g : Bool) (goal : String) :
    List (EngineState → Option Intervention × EngineState) :=
  [fun s => checkEscalation s now ts,
   fun s => checkSevereBalance s now bs br,
   fun s => checkTimeWarning s now goal,
   fun s =>
     if s.silence_detection && silenceTruthy sd then checkSilence s now (sd.getD 0)
     else (none, s),
   fun s => checkMildBalance s now bs br,
   fun s => checkGoalDrift s now g goal]

/-- Run a list of checks in order, returning the first non-null result and
never evaluating the checks after it. -/
def runFirst : List (EngineState → Option Intervention × EngineState) → EngineState →
    Option Intervention × EngineState
  | [], s => (none, s)
  | f :: fs, s =>
    match f s with
    | (some i, s2) => (some i, s2)
    | (none, s2) => runFirst fs s2

/-- Cooldown compatibility of an earlier and a later recorded intervention. -/
def gapOK (a b : Intervention) : Prop :=
  a.created_at + MIN_INTERVENTION_INTERVAL ≤ b.created_at ∧
  (a.type = b.type → a.created_at + COOLDOWN_PERIOD ≤ b.created_at)

/-- Recording invariant of an engine instance: the history is ordered and
cooldown-compatible, and the last-intervention bookkeeping dominates every
recorded creation time. -/
def EngineInv (s : EngineState) : Prop :=
  s.intervention_history.Pairwise gapOK ∧
  (∀ i ∈ s.intervention_history,
    ∃ L, s.last_intervention = some L ∧ i.created_at ≤ L) ∧
  (∀ i ∈ s.intervention_history,
    ∃ T, alookup s.last_intervention_by_type i.type = some T ∧ i.created_at ≤ T)

/-- Time-warning invariant: the sent-thresholds list has no duplicates and
grows by exactly one entry per recorded time-warning intervention. -/
def TWInv (s : EngineState) : Prop :=
  s.time_warnings_sent.Nodup ∧
  s.intervention_history.countP
      (fun i => decide (i.type = InterventionType.time_warning)) =
    s.time_warnings_sent.length

/-- Whether an event is a time_remaining event with a negative remaining. -/
def hasNegativeRemaining : SessionEvent → Bool
  | SessionEvent.time_remaining _ _ tot _ => decide (tot < 0)
  | _ => false

/-- Whether an event is an intervention of type escalation or goal_drift. -/
def isEscalationOrDrift : SessionEvent → Bool
  | SessionEvent.intervention i =>
    match i.type with
    | InterventionType.escalation => true
    | InterventionType.goal_drift => true
    | _ => false
  | _ => false

/-- A freshly started engine for a 30 minute session. -/
def e2engine : EngineState := EngineState.init 0 30 true true false

/-- A freshly started engine for a 2 minute session. -/
def e6engine : EngineState := EngineState.init 0 2 true true false

/-- A runtime with only a running timer started at t=0. -/
def rt8 : RuntimeState :=
  { timer := some { started_at := 0, paused_at := none, paused_seconds := 0 },
    tracker := none, engine := none, session := none,
    is_speaking := false, last_speech_at := none }

/-! ## Theorems -/

theorem ratTrunc_nonneg {q : ℚ} (h : 0 ≤ q) : 0 ≤ ratTrunc q := by
  unfold ratTrunc
  exact Int.tdiv_nonneg (Rat.num_nonneg.mpr h) (by exact_mod_cast Nat.zero_le q.den)

theorem ratTrunc_eq_floor {q : ℚ} (h : 0 ≤ q) : ratTrunc q = ⌊q⌋ := by
  rw [Rat.floor_def, ratTrunc,
    Int.tdiv_eq_ediv (Rat.num_nonneg.mpr h) (by exact_mod_cast Nat.zero_le q.den)]

theorem alookup_aset_self {α β : Type} [DecidableEq α] (l : List (α × β)) (k : α) (v : β) :
    alookup (aset l k v) k = some v := by
  induction l with
  | nil => simp [aset, alookup]
  | cons hd tl ih =>
    obtain ⟨k', v'⟩ := hd
    by_cases h : k' = k <;> simp [aset, alookup, h, ih]

theorem alookup_aset_ne {α β : Type} [DecidableEq α] (l : List (α × β)) (k k' : α) (v : β)
    (h : k ≠ k') : alookup (aset l k v) k' = alookup l k' := by
  induction l with
  | nil => simp [aset, alookup, h]
  | cons hd tl ih =>
    obtain ⟨k0, v0⟩ := hd
    by_cases h0 : k0 = k
    · subst h0
      simp [aset, alookup, h]
    · simp [aset, alookup, h0, ih]

theorem aset_self_of_alookup {α β : Type} [DecidableEq α] {l : List (α × β)} {k : α} {v : β}
    (h : alookup l k = some v) : aset l k v = l := by
  induction l with
  | nil => simp [alookup] at h
  | cons hd tl ih =>
    obtain ⟨k0, v0⟩ := hd
    by_cases h0 : k0 = k
    · subst h0
      simp [alookup] at h
      simp [aset, h]
    · simp [alookup, h0] at h
      simp [aset, h0, ih h]

/-- C7: pausing freezes elapsed time at its value E when pause was called,
elapsed stays E at every instant while paused, resuming after any real
delay D restores exactly E (so the remaining-seconds computation is
unaffected by D), and elapsed_seconds is never negative. -/
theorem C7_pause_freezes_elapsed (st : SessionTimerState) (tp D t : ℚ)
    (duration_seconds : ℤ) :
    (st.pause tp).elapsed_seconds t = st.elapsed_seconds tp ∧
    ((st.pause tp).resume (tp + D)).elapsed_seconds (tp + D) = st.elapsed_seconds tp ∧
    remainingSeconds duration_seconds
        (((st.pause tp).resume (tp + D)).elapsed_seconds (tp + D)) =
      remainingSeconds duration_seconds (st.elapsed_seconds tp) ∧
    0 ≤ st.elapsed_seconds t := by
  have h : (st.pause tp).elapsed_seconds t = st.elapsed_seconds tp := by
    cases hp : st.paused_at with
    | none => simp [SessionTimerState.pause, SessionTimerState.elapsed_seconds, hp]
    | some q => simp [SessionTimerState.pause, SessionTimerState.elapsed_seconds, hp]
  have h2 : ((st.pause tp).resume (tp + D)).elapsed_seconds (tp + D) =
      st.elapsed_seconds tp := by
    cases hp : st.paused_at with
    | none =>
      simp only [SessionTimerState.pause, SessionTimerState.resume,
        SessionTimerState.elapsed_seconds, hp, Option.getD]
      congr 1
      ring
    | some q =>
      simp only [SessionTimerState.pause, SessionTimerState.resume,
        SessionTimerState.elapsed_seconds, hp, Option.getD]
      congr 1
      ring
  refine ⟨h, h2, by rw [h2], ?_⟩
  exact le_max_right _ _

theorem balanceP1_eq (st : TrackerState) (now : ℚ) :
    balanceP1 st now = 100 - balanceP0 st now := by
  unfold balanceP1
  split_ifs with hc
  · rfl
  · omega

theorem balanceTimes_length (st : TrackerState) (now : ℚ) :
    (balanceTimes st now).length = st.speakers.length := by
  simp [balanceTimes]

/-- C5: get_balance returns the waiting sentinel exactly when fewer than two
distinct speakers are recorded; with two or more, the second percentage is
forced to 100 minus the first so the two always sum to 100, a zero total
yields the balanced 50/50 default, the first percentage is the floor of
time over total times 100, and the status is classified from the absolute
percentage difference with 35 balanced, 36 and 40 mild, 41 severe. -/
theorem C5_get_balance_spec (st : TrackerState) (now : ℚ) :
    ((get_balance st now).waiting_for_speakers = true ↔ st.speakers.length < 2) ∧
    (2 ≤ st.speakers.length →
      (get_balance st now).participant_b_percentage =
        100 - (get_balance st now).participant_a_percentage ∧
      (get_balance st now).participant_a_percentage +
        (get_balance st now).participant_b_percentage = 100 ∧
      (balanceTotal st now = 0 →
        (get_balance st now).participant_a_percentage = 50 ∧
        (get_balance st now).participant_b_percentage = 50 ∧
        (get_balance st now).status = "balanced") ∧
      (0 < balanceTotal st now → 0 ≤ (balanceTimes st now).getD 0 0 →
        (get_balance st now).participant_a_percentage =
          ⌊((((balanceTimes st now).getD 0 0 : ℤ) : ℚ) * 100) /
            ((balanceTotal st now : ℤ) : ℚ)⌋) ∧
      (get_balance st now).status =
        statusOfDiff |(get_balance st now).participant_a_percentage -
          (get_balance st now).participant_b_percentage|) ∧
    (statusOfDiff 35 = "balanced" ∧ statusOfDiff 36 = "mild_imbalance" ∧
      statusOfDiff 40 = "mild_imbalance" ∧ statusOfDiff 41 = "severe_imbalance") := by
  have hbound : statusOfDiff 35 = "balanced" ∧ statusOfDiff 36 = "mild_imbalance" ∧
      statusOfDiff 40 = "mild_imbalance" ∧ statusOfDiff 41 = "severe_imbalance" := by
    refine ⟨?_, ?_, ?_, ?_⟩ <;>
      norm_num [statusOfDiff, MILD_IMBALANCE_THRESHOLD, SEVERE_IMBALANCE_THRESHOLD]
  refine ⟨?_, ?_, hbound⟩
  · unfold get_balance
    split_ifs with hl <;> simp [hl]
  · intro h2
    have hl : ¬ st.speakers.length < 2 := by omega
    have hb : get_balance st now =
        { participant_a_id := some ((st.speakers.map (fun p => p.1)).getD 0 ""),
          participant_a_percentage := balanceP0 st now,
          participant_b_id := some ((st.speakers.map (fun p => p.1)).getD 1 ""),
          participant_b_percentage := balanceP1 st now,
          status := statusOfDiff |balanceP0 st now - balanceP1 st now|,
          waiting_for_speakers := false } := by
      unfold get_balance
      rw [if_neg hl]
    rw [hb]
    refine ⟨balanceP1_eq st now, by rw [balanceP1_eq]; ring, ?_, ?_, rfl⟩
    · intro htz
      have hp : balancePercentages st now = [(50 : ℤ), 50] := by
        unfold balancePercentages
        rw [if_pos htz]
      have h0 : balanceP0 st now = 50 := by
        unfold balanceP0
        rw [hp]
        rfl
      have h1 : balanceP1 st now = 50 := by
        rw [balanceP1_eq, h0]
        norm_num
      refine ⟨h0, h1, ?_⟩
      rw [h0, h1]
      norm_num [statusOfDiff, MILD_IMBALANCE_THRESHOLD]
    · intro htpos ht0
      have htne : balanceTotal st now ≠ 0 := by omega
      rcases hbt : balanceTimes st now with _ | ⟨t0, rest⟩
      · exfalso
        have := balanceTimes_length st now
        rw [hbt] at this
        simp at this
        omega
      · have hgetD : (balanceTimes st now).getD 0 0 = t0 := by
          rw [hbt]
          rfl
        have hp0 : balanceP0 st now =
            ratTrunc (((t0 : ℤ) : ℚ) * 100 / ((balanceTotal st now : ℤ) : ℚ)) := by
          unfold balanceP0 balancePercentages
          rw [if_neg htne, hbt]
          rfl
        show balanceP0 st now = _
        have hred : ((t0 :: rest).getD 0 0 : ℤ) = t0 := rfl
        rw [hred, hp0]
        have ht0i : (0 : ℤ) ≤ t0 := by
          rw [hgetD] at ht0
          exact ht0
        apply ratTrunc_eq_floor
        apply div_nonneg
        · have : (0 : ℚ) ≤ (t0 : ℚ) := by exact_mod_cast ht0i
          nlinarith
        · exact_mod_cast le_of_lt htpos

theorem mildTriggerBranch_fst (st : TrackerState) (now : ℚ) (status : String) :
    (mildTriggerBranch st now status).1 = some "balance" ↔
      ((status = "mild_imbalance" ∨ status = "severe_imbalance") ∧
       ∃ s, st.imbalance_start = some s ∧ MILD_IMBALANCE_DURATION < now - s) := by
  unfold mildTriggerBranch
  split_ifs with hst
  · cases his : st.imbalance_start with
    | none => simp [hst, his]
    | some s =>
      dsimp only
      split_ifs with hd
      · simp [hst, his]
        linarith
      · simp [hst, his]
        linarith
  · simp [hst]

theorem mildTriggerBranch_fst_ne_severe (st : TrackerState) (now : ℚ) (status : String) :
    (mildTriggerBranch st now status).1 ≠ some "severe_balance" := by
  unfold mildTriggerBranch
  split_ifs with hst
  · cases his : st.imbalance_start with
    | none => simp
    | some s =>
      dsimp only
      split_ifs with hd
      · simp
      · simp
  · simp

theorem mildTriggerBranch_imb (st : TrackerState) (now : ℚ) (status : String)
    (h : ¬ (status = "mild_imbalance" ∨ status = "severe_imbalance")) :
    (mildTriggerBranch st now status).2.imbalance_start = none := by
  unfold mildTriggerBranch
  rw [if_neg h]

theorem mildTriggerBranch_severe_field (st : TrackerState) (now : ℚ) (status : String) :
    (mildTriggerBranch st now status).2.severe_imbalance_start =
      st.severe_imbalance_start := by
  unfold mildTriggerBranch
  split_ifs with hst
  · cases his : st.imbalance_start with
    | none => rfl
    | some s =>
      dsimp only
      split_ifs with hd
      · rfl
      · rfl
  · rfl

/-- C1 counterexample: two speakers in continuous severe imbalance from t=0.
If the trigger is also polled at t=0, the call at t=185 returns the string
"balance", not none as the claim asserts; if instead the only calls are at
t=185 and t=365, the call at t=365 returns none (the strict 3-minute
comparison fails at exactly 180 seconds), not "balance" as the claim
asserts. Either way the claimed call outcomes are wrong. -/
theorem C1_counterexample :
    (get_balance cTracker1 0).waiting_for_speakers = false ∧
    (get_balance cTracker1 0).status = "severe_imbalance" ∧
    (get_balance ((check_intervention_trigger cTracker1 0).2) 185).status =
      "severe_imbalance" ∧
    (check_intervention_trigger ((check_intervention_trigger cTracker1 0).2) 185).1 =
      some "balance" ∧
    (check_intervention_trigger ((check_intervention_trigger cTracker1 185).2) 365).1 =
      none := by
  refine ⟨?_, ?_, ?_, ?_, ?_⟩ <;>
    norm_num +decide [check_intervention_trigger, mildTriggerBranch, get_balance,
      balanceP0, balanceP1, balanceP1raw, balancePercentages, balanceTimes,
      balanceTotal, get_current_speaking_time, alookup, statusOfDiff, ratTrunc,
      cTracker1, MILD_IMBALANCE_THRESHOLD, SEVERE_IMBALANCE_THRESHOLD,
      MILD_IMBALANCE_DURATION, SEVERE_IMBALANCE_DURATION]

/-- C1, amended: check_intervention_trigger leaves the state untouched and
returns none on a waiting call; on a non-waiting call it returns
"severe_balance" exactly when the status is severe and the recorded severe
start-timestamp is strictly more than 5 minutes old, otherwise "balance"
exactly when the status is mild-or-worse and the recorded mild
start-timestamp is strictly more than 3 minutes old; each start-timestamp
resets to null on a non-waiting call where its condition is untrue; and in
the continuous severe-imbalance scenario with calls at t=0, t=185 and
t=365, the t=185 call returns "balance" and the t=365 call returns
"severe_balance". -/
theorem C1_trigger_spec (st : TrackerState) (now : ℚ) :
    ((get_balance st now).waiting_for_speakers = true →
      check_intervention_trigger st now = (none, st)) ∧
    ((get_balance st now).waiting_for_speakers = false →
      (((check_intervention_trigger st now).1 = some "severe_balance") ↔
        ((get_balance st now).status = "severe_imbalance" ∧
         ∃ s, st.severe_imbalance_start = some s ∧
           SEVERE_IMBALANCE_DURATION < now - s)) ∧
      (((check_intervention_trigger st now).1 = some "balance") ↔
        (¬ ((get_balance st now).status = "severe_imbalance" ∧
            ∃ s, st.severe_imbalance_start = some s ∧
              SEVERE_IMBALANCE_DURATION < now - s) ∧
         ((get_balance st now).status = "mild_imbalance" ∨
          (get_balance st now).status = "severe_imbalance") ∧
         ∃ s, st.imbalance_start = some s ∧ MILD_IMBALANCE_DURATION < now - s)) ∧
      ((get_balance st now).status ≠ "severe_imbalance" →
        (check_intervention_trigger st now).2.severe_imbalance_start = none) ∧
      (¬ ((get_balance st now).status = "mild_imbalance" ∨
          (get_balance st now).status = "severe_imbalance") →
        (check_intervention_trigger st now).2.imbalance_start = none)) ∧
    (check_intervention_trigger ((check_intervention_trigger cTracker1 0).2) 185).1 =
      some "balance" ∧
    (check_intervention_trigger ((check_intervention_trigger cTracker1 0).2) 365).1 =
      some "severe_balance" := by
  have hmain : ∀ hw : (get_balance st now).waiting_for_speakers = false,
      (((check_intervention_trigger st now).1 = some "severe_balance") ↔
        ((get_balance st now).status = "severe_imbalance" ∧
         ∃ s, st.severe_imbalance_start = some s ∧
           SEVERE_IMBALANCE_DURATION < now - s)) ∧
      (((check_intervention_trigger st now).1 = some "balance") ↔
        (¬ ((get_balance st now).status = "severe_imbalance" ∧
            ∃ s, st.severe_imbalance_start = some s ∧
              SEVERE_IMBALANCE_DURATION < now - s) ∧
         ((get_balance st now).status = "mild_imbalance" ∨
          (get_balance st now).status = "severe_imbalance") ∧
         ∃ s, st.imbalance_start = some s ∧ MILD_IMBALANCE_DURATION < now - s)) ∧
      ((get_balance st now).status ≠ "severe_imbalance" →
        (check_intervention_trigger st now).2.severe_imbalance_start = none) ∧
      (¬ ((get_balance st now).status = "mild_imbalance" ∨
          (get_balance st now).status = "severe_imbalance") →
        (check_intervention_trigger st now).2.imbalance_start = none) := by
    intro hw
    have hct : check_intervention_trigger st now =
        (if (get_balance st now).status = "severe_imbalance" then
          match st.severe_imbalance_start with
          | none =>
            mildTriggerBranch { st with severe_imbalance_start := some now } now
              (get_balance st now).status
          | some s =>
            if now - s > SEVERE_IMBALANCE_DURATION then (some "severe_balance", st)
            else mildTriggerBranch st now (get_balance st now).status
         else
          mildTriggerBranch { st with severe_imbalance_start := none } now
            (get_balance st now).status) := by
      unfold check_intervention_trigger
      rw [if_neg (by rw [hw]; simp : ¬ ((get_balance st now).waiting_for_speakers = true))]
    by_cases hsev : (get_balance st now).status = "severe_imbalance"
    · rw [hct, if_pos hsev]
      cases hss : st.severe_imbalance_start with
      | none =>
        dsimp only
        constructor
        · constructor
          · intro habs
            exact absurd habs (mildTriggerBranch_fst_ne_severe _ _ _)
          · rintro ⟨-, s, hcontra, -⟩
            simp at hcontra
        constructor
        · rw [mildTriggerBranch_fst]
          constructor
          · rintro ⟨hor, s, hsi, hdelta⟩
            exact ⟨by rintro ⟨-, s', hcontra, -⟩; simp at hcontra,
              hor, s, hsi, hdelta⟩
          · rintro ⟨-, hor, s, hsi, hdelta⟩
            exact ⟨hor, s, hsi, hdelta⟩
        constructor
        · intro hcontra
          exact absurd hsev hcontra
        · intro hcontra
          exact absurd (Or.inr hsev) hcontra
      | some s =>
        dsimp only
        by_cases hdur : now - s > SEVERE_IMBALANCE_DURATION
        · rw [if_pos hdur]
          refine ⟨⟨fun _ => ⟨hsev, s, rfl, hdur⟩, fun _ => rfl⟩, ?_, ?_, ?_⟩
          · simp only [Prod.fst]
            constructor
            · intro habs
              simp at habs
            · rintro ⟨habs, -⟩
              exact absurd ⟨hsev, s, rfl, hdur⟩ habs
          · intro hcontra
            exact absurd hsev hcontra
          · intro hcontra
            exact absurd (Or.inr hsev) hcontra
        · rw [if_neg hdur]
          refine ⟨?_, ?_, ?_, ?_⟩
          · constructor
            · intro habs
              exact absurd habs (mildTriggerBranch_fst_ne_severe _ _ _)
            · rintro ⟨-, s', hs', hd'⟩
              cases hs'
              exact absurd hd' hdur
          · rw [mildTriggerBranch_fst]
            constructor
            · rintro ⟨hor, s', hsi, hdelta⟩
              refine ⟨?_, hor, s', hsi, hdelta⟩
              rintro ⟨-, s'', hs'', hd''⟩
              cases hs''
              exact absurd hd'' hdur
            · rintro ⟨-, hor, s', hsi, hdelta⟩
              exact ⟨hor, s', hsi, hdelta⟩
          · intro hcontra
            exact absurd hsev hcontra
          · intro hcontra
            exact absurd (Or.inr hsev) hcontra
    · rw [hct, if_neg hsev]
      refine ⟨?_, ?_, ?_, ?_⟩
      · constructor
        · intro habs
          exact absurd habs (mildTriggerBranch_fst_ne_severe _ _ _)
        · rintro ⟨hcontra, -⟩
          exact absurd hcontra hsev
      · rw [mildTriggerBranch_fst]
        constructor
        · rintro ⟨hor, s', hsi, hdelta⟩
          exact ⟨by rintro ⟨hcontra, -⟩; exact absurd hcontra hsev, hor, s', hsi, hdelta⟩
        · rintro ⟨-, hor, s', hsi, hdelta⟩
          exact ⟨hor, s', hsi, hdelta⟩
      · intro _
        rw [mildTriggerBranch_severe_field]
      · intro hcontra
        exact mildTriggerBranch_imb _ _ _ hcontra
  refine ⟨?_, hmain, ?_, ?_⟩
  · intro hw
    simp [check_intervention_trigger, hw]
  · norm_num +decide [check_intervention_trigger, mildTriggerBranch, get_balance,
      balanceP0, balanceP1, balanceP1raw, balancePercentages, balanceTimes,
      balanceTotal, get_current_speaking_time, alookup, statusOfDiff, ratTrunc,
      cTracker1, MILD_IMBALANCE_THRESHOLD, SEVERE_IMBALANCE_THRESHOLD,
      MILD_IMBALANCE_DURATION, SEVERE_IMBALANCE_DURATION]
  · norm_num +decide [check_intervention_trigger, mildTriggerBranch, get_balance,
      balanceP0, balanceP1, balanceP1raw, balancePercentages, balanceTimes,
      balanceTotal, get_current_speaking_time, alookup, statusOfDiff, ratTrunc,
      cTracker1, MILD_IMBALANCE_THRESHOLD, SEVERE_IMBALANCE_THRESHOLD,
      MILD_IMBALANCE_DURATION, SEVERE_IMBALANCE_DURATION]

/-- C1 witness: the waiting clause of the trigger characterization applied
to a freshly constructed tracker with no recorded speakers. -/
theorem C1_witness :
    (get_balance (TrackerState.init 0) 5).waiting_for_speakers = true ∧
    check_intervention_trigger (TrackerState.init 0) 5 = (none, TrackerState.init 0) :=
  ⟨by decide, (C1_trigger_spec (TrackerState.init 0) 5).1 (by decide)⟩

/-- C5 witness: the sum invariant and the floor formula instantiated on a
concrete two-speaker tracker with 1000ms and 0ms of recorded time. -/
theorem C5_witness :
    (get_balance cTracker1 3).participant_a_percentage +
      (get_balance cTracker1 3).participant_b_percentage = 100 ∧
    (get_balance cTracker1 3).participant_a_percentage =
      ⌊(((balanceTimes cTracker1 3).getD 0 0 : ℤ) : ℚ) * 100 /
        ((balanceTotal cTracker1 3 : ℤ) : ℚ)⌋ := by
  have h := (C5_get_balance_spec cTracker1 3).2.1 (by decide)
  exact ⟨h.2.1, h.2.2.2.1 (by decide) (by decide)⟩

theorem alookup_append_of_none {α β : Type} [DecidableEq α] (l1 l2 : List (α × β))
    (k : α) (h : alookup l1 k = none) : alookup (l1 ++ l2) k = alookup l2 k := by
  induction l1 with
  | nil => simp
  | cons hd tl ih =>
    obtain ⟨k0, v0⟩ := hd
    by_cases h0 : k0 = k
    · simp [alookup, h0] at h
    · simp [alookup, h0] at h ⊢
      exact ih h

/-- C9 counterexample: speaker "B" has never been seen and is reported as
not speaking, which the claim calls a no-op, yet the call flips the
get_balance classification from waiting-for-speakers to an actual result,
because the method inserts a fresh metrics entry for the unknown id. -/
theorem C9_counterexample :
    (get_balance c9tracker 0).waiting_for_speakers = true ∧
    (get_balance (update_speaker c9tracker "B" false 0) 0).waiting_for_speakers =
      false := by
  constructor
  · decide
  · decide

/-- C9, amended: update_speaker is a strict no-op on all tracker state when
the id is already recorded and its current speaking flag equals the
reported one; for a never-seen id reported as not speaking the call is not
a no-op: it appends a default metrics entry for the id, which grows the
speaker count (and can therefore change get_balance). -/
theorem C9_update_speaker_noop (st : TrackerState) (speaker_id : String) (b : Bool)
    (now : ℚ) :
    (∀ m : SpeakerMetrics, alookup st.speakers speaker_id = some m →
      m.is_speaking = b → update_speaker st speaker_id b now = st) ∧
    (alookup st.speakers speaker_id = none →
      update_speaker st speaker_id false now =
        { st with speakers := st.speakers ++ [(speaker_id, SpeakerMetrics.init)] }) := by
  constructor
  · intro m hm hb
    have hs : update_speaker st speaker_id b now =
        { st with speakers := aset st.speakers speaker_id m } := by
      unfold update_speaker
      simp only [hm, Option.isSome_some, Option.getD_some, hb]
      cases b
      · simp [hm, hb]
      · simp [hm, hb]
    rw [hs, aset_self_of_alookup hm]
  · intro hnone
    have hlook : alookup (st.speakers ++ [(speaker_id, SpeakerMetrics.init)]) speaker_id =
        some SpeakerMetrics.init := by
      rw [alookup_append_of_none _ _ _ hnone]
      simp [alookup]
    unfold update_speaker
    have hinit : SpeakerMetrics.init.is_speaking = false := rfl
    simp only [hnone, Option.isSome_none, Bool.false_eq_true, if_false, hlook,
      Option.getD_some, hinit, Bool.false_and, Bool.and_false, Bool.not_false,
      Bool.true_and]
    rw [aset_self_of_alookup hlook]

/-- C9 witness: the no-op clause applied to a tracker that already records
speaker "A" as not speaking. -/
theorem C9_witness :
    update_speaker c9tracker "A" false 7 = c9tracker :=
  (C9_update_speaker_noop c9tracker "A" false 7).1 SpeakerMetrics.init (by decide)
    (by decide)

theorem onlyTimersDiffer_refl (s : EngineState) : onlyTimersDiffer s s := rfl

theorem onlyTimersDiffer_trans {s s1 s2 : EngineState} (h1 : onlyTimersDiffer s s1)
    (h2 : onlyTimersDiffer s1 s2) : onlyTimersDiffer s s2 := by
  unfold onlyTimersDiffer at *
  rw [h2, h1]

theorem recordedFire_congr {ty : InterventionType} {s sm : EngineState} {now : ℚ}
    {r : Option Intervention × EngineState} (h : onlyTimersDiffer s sm)
    (hr : recordedFire ty sm now r) : recordedFire ty s now r := by
  unfold onlyTimersDiffer at h
  rw [h] at hr
  exact hr

theorem canIntervene_global_le {s : EngineState} {now : ℚ}
    {o : Option InterventionType} {L : ℚ} (h : canIntervene s now o = true)
    (hl : s.last_intervention = some L) : L + MIN_INTERVENTION_INTERVAL ≤ now := by
  unfold canIntervene at h
  split_ifs at h with h1 h2 h3 h4 h5 h6 h7 h8
  have hg : globalCooldownActive s now = false := by
    exact Bool.eq_false_iff.mpr h3
  unfold globalCooldownActive at hg
  rw [hl] at hg
  simp at hg
  linarith

theorem canIntervene_type_le {s : EngineState} {now : ℚ} {ty : InterventionType}
    {T : ℚ} (h : canIntervene s now (some ty) = true)
    (hl : alookup s.last_intervention_by_type ty = some T) :
    T + COOLDOWN_PERIOD ≤ now := by
  unfold canIntervene at h
  split_ifs at h with h1 h2 h3 h4 h5 h6 h7 h8
  have hg : typeCooldownActive s now (some ty) = false := by
    exact Bool.eq_false_iff.mpr h4
  unfold typeCooldownActive at hg
  dsimp only at hg
  rw [hl] at hg
  simp at hg
  linarith

theorem canIntervene_quiet_block {s : EngineState} {now : ℚ} {ty : InterventionType}
    (hty : ty ≠ InterventionType.icebreaker)
    (hel : get_session_elapsed s now < FIRST_MINUTES_QUIET) :
    canIntervene s now (some ty) = false := by
  unfold canIntervene
  split_ifs with h1 h2 <;> try rfl
  exfalso
  exact h2 ⟨by simpa using hty, hel⟩

theorem checkEscalation_spec (s : EngineState) (now : ℚ) (ts : ℚ) :
    checkSpec InterventionType.escalation s now (checkEscalation s now ts) := by
  unfold checkEscalation
  by_cases h1 : ts > TENSION_THRESHOLD
  · rw [if_pos h1]
    cases ht : s.tension_start with
    | none =>
      dsimp only
      exact Or.inl ⟨rfl, rfl⟩
    | some t =>
      dsimp only
      by_cases h2 : now - t ≥ TENSION_DURATION
      · rw [if_pos h2]
        by_cases h3 : canIntervene s now (some InterventionType.escalation) = true
        · rw [if_pos h3]
          refine Or.inr ⟨_, rfl, rfl, rfl, h3, rfl, rfl, rfl, ?_⟩
          simp [createIntervention]
        · rw [if_neg h3]
          exact Or.inl ⟨rfl, onlyTimersDiffer_refl s⟩
      · rw [if_neg h2]
        exact Or.inl ⟨rfl, onlyTimersDiffer_refl s⟩
  · rw [if_neg h1]
    exact Or.inl ⟨rfl, rfl⟩

theorem checkSevereBalance_spec (s : EngineState) (now : ℚ) (bs : String)
    (br : Option BalanceInput) :
    checkSpec InterventionType.balance s now (checkSevereBalance s now bs br) := by
  unfold checkSevereBalance
  by_cases h1 : bs ≠ "severe_imbalance"
  · rw [if_pos h1]
    exact Or.inl ⟨rfl, onlyTimersDiffer_refl s⟩
  · rw [if_neg h1]
    by_cases h2 : canIntervene s now (some InterventionType.balance) = true
    · rw [if_neg (by simp [h2])]
      refine Or.inr ⟨_, rfl, rfl, rfl, h2, rfl, rfl, rfl, ?_⟩
      rw [if_neg (by decide : ¬ (InterventionType.balance = InterventionType.time_warning))]
      rfl
    · rw [if_pos (by simp [Bool.eq_false_iff.mpr h2])]
      exact Or.inl ⟨rfl, onlyTimersDiffer_refl s⟩

theorem checkTimeWarning_spec (s : EngineState) (now : ℚ) (goal : String) :
    checkSpec InterventionType.time_warning s now (checkTimeWarning s now goal) := by
  unfold checkTimeWarning
  by_cases hc : canIntervene s now (some InterventionType.time_warning) = true
  · rw [if_neg (by simp [hc])]
    by_cases t5 : get_time_remaining s now ≤ TIME_WARNING_5_MIN ∧
        TIME_WARNING_5_MIN ∉ s.time_warnings_sent
    · rw [if_pos t5]
      refine Or.inr ⟨_, rfl, rfl, rfl, hc, rfl, rfl, rfl, ?_⟩
      rw [if_pos rfl]
      exact ⟨TIME_WARNING_5_MIN, t5.2, rfl⟩
    · rw [if_neg t5]
      by_cases t2 : get_time_remaining s now ≤ TIME_WARNING_2_MIN ∧
          TIME_WARNING_2_MIN ∉ s.time_warnings_sent
      · rw [if_pos t2]
        refine Or.inr ⟨_, rfl, rfl, rfl, hc, rfl, rfl, rfl, ?_⟩
        rw [if_pos rfl]
        exact ⟨TIME_WARNING_2_MIN, t2.2, rfl⟩
      · rw [if_neg t2]
        by_cases t1 : get_time_remaining s now ≤ TIME_WARNING_1_MIN ∧
            TIME_WARNING_1_MIN ∉ s.time_warnings_sent
        · rw [if_pos t1]
          refine Or.inr ⟨_, rfl, rfl, rfl, hc, rfl, rfl, rfl, ?_⟩
          rw [if_pos rfl]
          exact ⟨TIME_WARNING_1_MIN, t1.2, rfl⟩
        · rw [if_neg t1]
          exact Or.inl ⟨rfl, onlyTimersDiffer_refl s⟩
  · rw [if_pos (by simp [Bool.eq_false_iff.mpr hc])]
    exact Or.inl ⟨rfl, onlyTimersDiffer_refl s⟩

theorem checkSilence_spec (s : EngineState) (now : ℚ) (d : ℚ) :
    checkSpec InterventionType.silence s now (checkSilence s now d) := by
  unfold checkSilence
  by_cases h1 : d < SILENCE_THRESHOLD
  · rw [if_pos h1]
    exact Or.inl ⟨rfl, rfl⟩
  · rw [if_neg h1]
    by_cases h2 : canIntervene s now (some InterventionType.silence) = true
    · rw [if_neg (by simp [h2])]
      refine Or.inr ⟨_, rfl, rfl, rfl, h2, rfl, rfl, rfl, ?_⟩
      rw [if_neg (by decide : ¬ (InterventionType.silence = InterventionType.time_warning))]
      rfl
    · rw [if_pos (by simp [Bool.eq_false_iff.mpr h2])]
      exact Or.inl ⟨rfl, onlyTimersDiffer_refl s⟩

theorem checkMildBalance_spec (s : EngineState) (now : ℚ) (bs : String)
    (br : Option BalanceInput) :
    checkSpec InterventionType.balance s now (checkMildBalance s now bs br) := by
  unfold checkMildBalance
  by_cases h1 : bs ≠ "mild_imbalance"
  · rw [if_pos h1]
    exact Or.inl ⟨rfl, onlyTimersDiffer_refl s⟩
  · rw [if_neg h1]
    by_cases h2 : canIntervene s now (some InterventionType.balance) = true
    · rw [if_neg (by simp [h2])]
      refine Or.inr ⟨_, rfl, rfl, rfl, h2, rfl, rfl, rfl, ?_⟩
      rw [if_neg (by decide : ¬ (InterventionType.balance = InterventionType.time_warning))]
      rfl
    · rw [if_pos (by simp [Bool.eq_false_iff.mpr h2])]
      exact Or.inl ⟨rfl, onlyTimersDiffer_refl s⟩

theorem checkGoalDrift_spec (s : EngineState) (now : ℚ) (g : Bool) (goal : String) :
    checkSpec InterventionType.goal_drift s now (checkGoalDrift s now g goal) := by
  unfold checkGoalDrift
  by_cases hg : (!g) = true
  · rw [if_pos hg]
    cases ht : s.goal_drift_start with
    | none =>
      dsimp only
      exact Or.inl ⟨rfl, rfl⟩
    | some t =>
      dsimp only
      by_cases h2 : now - t ≥ GOAL_DRIFT_THRESHOLD
      · rw [if_pos h2]
        by_cases h3 : canIntervene s now (some InterventionType.goal_drift) = true
        · rw [if_pos h3]
          refine Or.inr ⟨_, rfl, rfl, rfl, h3, rfl, rfl, rfl, ?_⟩
          rw [if_neg
            (by decide : ¬ (InterventionType.goal_drift = InterventionType.time_warning))]
          rfl
        · rw [if_neg h3]
          exact Or.inl ⟨rfl, onlyTimersDiffer_refl s⟩
      · rw [if_neg h2]
        exact Or.inl ⟨rfl, onlyTimersDiffer_refl s⟩
  · rw [if_neg hg]
    exact Or.inl ⟨rfl, rfl⟩

theorem createIcebreaker_spec (s : EngineState) (now : ℚ) (goal : String) :
    checkSpec InterventionType.icebreaker s now (createIcebreaker s now goal) := by
  unfold createIcebreaker
  by_cases hc : canIntervene s now (some InterventionType.icebreaker) = true
  · rw [if_pos hc]
    refine Or.inr ⟨_, rfl, rfl, rfl, hc, rfl, rfl, rfl, ?_⟩
    rw [if_neg (by decide : ¬ (InterventionType.icebreaker = InterventionType.time_warning))]
    rfl
  · rw [if_neg hc]
    exact Or.inl ⟨rfl, onlyTimersDiffer_refl s⟩

theorem checkSpec_congr {ty : InterventionType} {s sm : EngineState} {now : ℚ}
    {r : Option Intervention × EngineState} (hd : onlyTimersDiffer s sm)
    (h : checkSpec ty sm now r) : checkSpec ty s now r :=
  h.imp (fun hp => ⟨hp.1, onlyTimersDiffer_trans hd hp.2⟩) (recordedFire_congr hd)

/-- Outcome of one whole evaluate call: either nothing fired and only the
duration timers moved, or exactly one check fired, recording an
intervention of one of the five types reachable from evaluate. -/
theorem evaluate_spec (s : EngineState) (now : ℚ) (bs : String)
    (br : Option BalanceInput) (sd : Option ℚ) (ts : ℚ) (g : Bool) (goal : String) :
    ((evaluate s now bs br sd ts g goal).1 = none ∧
      onlyTimersDiffer s (evaluate s now bs br sd ts g goal).2) ∨
    ∃ ty, (ty = InterventionType.escalation ∨ ty = InterventionType.balance ∨
        ty = InterventionType.time_warning ∨ ty = InterventionType.silence ∨
        ty = InterventionType.goal_drift) ∧
      recordedFire ty s now (evaluate s now bs br sd ts g goal) := by
  unfold evaluate
  rcases hE : checkEscalation s now ts with ⟨o1, s1⟩
  have hspec1 := checkEscalation_spec s now ts
  rw [hE] at hspec1
  cases o1 with
  | some i =>
    dsimp only
    rcases hspec1 with ⟨hnone, -⟩ | hr
    · simp at hnone
    · exact Or.inr ⟨_, Or.inl rfl, hr⟩
  | none =>
    dsimp only
    have hd1 : onlyTimersDiffer s s1 := by
      rcases hspec1 with ⟨-, hd⟩ | ⟨i, habs, -⟩
      · exact hd
      · simp at habs
    rcases hS : checkSevereBalance s1 now bs br with ⟨o2, s2⟩
    have hspec2 := checkSpec_congr hd1 (checkSevereBalance_spec s1 now bs br)
    rw [hS] at hspec2
    cases o2 with
    | some i =>
      dsimp only
      rcases hspec2 with ⟨hnone, -⟩ | hr
      · simp at hnone
      · exact Or.inr ⟨_, Or.inr (Or.inl rfl), hr⟩
    | none =>
      dsimp only
      have hd2 : onlyTimersDiffer s s2 := by
        rcases hspec2 with ⟨-, hd⟩ | ⟨i, habs, -⟩
        · exact hd
        · simp at habs
      rcases hT : checkTimeWarning s2 now goal with ⟨o3, s3⟩
      have hspec3 := checkSpec_congr hd2 (checkTimeWarning_spec s2 now goal)
      rw [hT] at hspec3
      cases o3 with
      | some i =>
        dsimp only
        rcases hspec3 with ⟨hnone, -⟩ | hr
        · simp at hnone
        · exact Or.inr ⟨_, Or.inr (Or.inr (Or.inl rfl)), hr⟩
      | none =>
        dsimp only
        have hd3 : onlyTimersDiffer s s3 := by
          rcases hspec3 with ⟨-, hd⟩ | ⟨i, habs, -⟩
          · exact hd
          · simp at habs
        have hgate : checkSpec InterventionType.silence s3 now
            (if s3.silence_detection && silenceTruthy sd then
              checkSilence s3 now (sd.getD 0)
             else (none, s3)) := by
          split_ifs with hsg
          · exact checkSilence_spec s3 now (sd.getD 0)
          · exact Or.inl ⟨rfl, onlyTimersDiffer_refl s3⟩
        rcases hSi : (if s3.silence_detection && silenceTruthy sd then
            checkSilence s3 now (sd.getD 0)
          else (none, s3)) with ⟨o4, s4⟩
        have hspec4 := checkSpec_congr hd3 hgate
        rw [hSi] at hspec4
        cases o4 with
        | some i =>
          dsimp only
          rcases hspec4 with ⟨hnone, -⟩ | hr
          · simp at hnone
          · exact Or.inr ⟨_, Or.inr (Or.inr (Or.inr (Or.inl rfl))), hr⟩
        | none =>
          dsimp only
          have hd4 : onlyTimersDiffer s s4 := by
            rcases hspec4 with ⟨-, hd⟩ | ⟨i, habs, -⟩
            · exact hd
            · simp at habs
          rcases hM : checkMildBalance s4 now bs br with ⟨o5, s5⟩
          have hspec5 := checkSpec_congr hd4 (checkMildBalance_spec s4 now bs br)
          rw [hM] at hspec5
          cases o5 with
          | some i =>
            dsimp only
            rcases hspec5 with ⟨hnone, -⟩ | hr
            · simp at hnone
            · exact Or.inr ⟨_, Or.inr (Or.inl rfl), hr⟩
          | none =>
            dsimp only
            have hd5 : onlyTimersDiffer s s5 := by
              rcases hspec5 with ⟨-, hd⟩ | ⟨i, habs, -⟩
              · exact hd
              · simp at habs
            rcases hG : checkGoalDrift s5 now g goal with ⟨o6, s6⟩
            have hspec6 := checkSpec_congr hd5 (checkGoalDrift_spec s5 now g goal)
            rw [hG] at hspec6
            cases o6 with
            | some i =>
              dsimp only
              rcases hspec6 with ⟨hnone, -⟩ | hr
              · simp at hnone
              · exact Or.inr ⟨_, Or.inr (Or.inr (Or.inr (Or.inr rfl))), hr⟩
            | none =>
              dsimp only
              rcases hspec6 with ⟨-, hd6⟩ | ⟨i, habs, -⟩
              · exact Or.inl ⟨rfl, hd6⟩
              · simp at habs

/-- C2: during the first 180 seconds of session time evaluate returns no
intervention at all, and create_icebreaker, the one entry point exempt from
the quiet period, only ever returns an icebreaker-typed intervention. -/
theorem C2_quiet_period (s : EngineState) (now : ℚ) (bs : String)
    (br : Option BalanceInput) (sd : Option ℚ) (ts : ℚ) (g : Bool) (goal : String)
    (h : get_session_elapsed s now < FIRST_MINUTES_QUIET) :
    (evaluate s now bs br sd ts g goal).1 = none ∧
    (∀ i s2, createIcebreaker s now goal = (some i, s2) →
      i.type = InterventionType.icebreaker) := by
  constructor
  · rcases evaluate_spec s now bs br sd ts g goal with ⟨hn, -⟩ | ⟨ty, hty, i, -, -, -, hci, -⟩
    · exact hn
    · exfalso
      have htyne : ty ≠ InterventionType.icebreaker := by
        rcases hty with rfl | rfl | rfl | rfl | rfl <;> decide
      rw [canIntervene_quiet_block htyne h] at hci
      cases hci
  · intro i s2 hib
    rcases createIcebreaker_spec s now goal with ⟨hn, -⟩ | ⟨i0, h1, hty0, -⟩
    · rw [hib] at hn
      simp at hn
    · rw [hib] at h1
      simp at h1
      rw [h1]
      exact hty0

/-- C2 witness: a fresh 30 minute engine evaluated 10 seconds in returns
nothing even under a severe imbalance report. -/
theorem C2_witness :
    (evaluate e2engine 10 "severe_imbalance" none none 0 true "").1 = none :=
  (C2_quiet_period e2engine 10 "severe_imbalance" none none 0 true ""
    (by norm_num [e2engine, EngineState.init, get_session_elapsed,
      FIRST_MINUTES_QUIET])).1

/-- C4: evaluate is exactly the run of the six checks in the strict priority
order escalation, severe balance, time warning, silence, mild balance, goal
drift, stopping at the first non-null result, and each call leaves the
history unchanged or extends it by exactly the one returned intervention. -/
theorem C4_priority_chain (s : EngineState) (now : ℚ) (bs : String)
    (br : Option BalanceInput) (sd : Option ℚ) (ts : ℚ) (g : Bool) (goal : String) :
    evaluate s now bs br sd ts g goal = runFirst (checkList now bs br sd ts g goal) s ∧
    (((evaluate s now bs br sd ts g goal).1 = none ∧
      (evaluate s now bs br sd ts g goal).2.intervention_history =
        s.intervention_history) ∨
     (∃ i, (evaluate s now bs br sd ts g goal).1 = some i ∧
      (evaluate s now bs br sd ts g goal).2.intervention_history =
        s.intervention_history ++ [i])) := by
  constructor
  · rfl
  · rcases evaluate_spec s now bs br sd ts g goal with ⟨hn, hd⟩ | ⟨ty, -, i, h1, -, -, -, hh, -⟩
    · refine Or.inl ⟨hn, ?_⟩
      unfold onlyTimersDiffer at hd
      rw [hd]
    · exact Or.inr ⟨i, h1, hh⟩

theorem EngineInv_fire {s : EngineState} {now : ℚ} {ty : InterventionType}
    {r : Option Intervention × EngineState} (hInv : EngineInv s)
    (hr : recordedFire ty s now r) : EngineInv r.2 := by
  obtain ⟨i, -, hity, hica, hci, hhist, hlast, hbt, -⟩ := hr
  obtain ⟨hpw, hL, hT⟩ := hInv
  have h30 : ∀ a ∈ s.intervention_history,
      a.created_at + MIN_INTERVENTION_INTERVAL ≤ now := by
    intro a ha
    obtain ⟨L, hsl, haL⟩ := hL a ha
    have := canIntervene_global_le hci hsl
    linarith
  have h120 : ∀ a ∈ s.intervention_history, a.type = ty →
      a.created_at + COOLDOWN_PERIOD ≤ now := by
    intro a ha hat
    obtain ⟨T, hst, haT⟩ := hT a ha
    rw [hat] at hst
    have := canIntervene_type_le hci hst
    linarith
  refine ⟨?_, ?_, ?_⟩
  · rw [hhist, List.pairwise_append]
    refine ⟨hpw, List.pairwise_singleton _ _, ?_⟩
    intro a ha b hb
    simp only [List.mem_singleton] at hb
    subst hb
    constructor
    · rw [hica]
      exact h30 a ha
    · intro hab
      rw [hica]
      apply h120 a ha
      rw [hab, hity]
  · intro j hj
    rw [hhist] at hj
    rcases List.mem_append.mp hj with hjo | hjn
    · obtain ⟨L, hsl, hjL⟩ := hL j hjo
      refine ⟨now, hlast, ?_⟩
      have h1 := canIntervene_global_le hci hsl
      have hpos : (0 : ℚ) < MIN_INTERVENTION_INTERVAL := by
        norm_num [MIN_INTERVENTION_INTERVAL]
      linarith
    · simp only [List.mem_singleton] at hjn
      subst hjn
      exact ⟨now, hlast, by rw [hica]⟩
  · intro j hj
    rw [hhist] at hj
    rcases List.mem_append.mp hj with hjo | hjn
    · by_cases hjt : j.type = ty
      · refine ⟨now, ?_, ?_⟩
        · rw [hbt, hjt]
          exact alookup_aset_self _ _ _
        · have := h120 j hjo hjt
          have hpos : (0 : ℚ) < COOLDOWN_PERIOD := by
            norm_num [COOLDOWN_PERIOD]
          linarith
      · obtain ⟨T, hst, hjT⟩ := hT j hjo
        refine ⟨T, ?_, hjT⟩
        rw [hbt, alookup_aset_ne _ _ _ _ (fun hh => hjt hh.symm)]
        exact hst
    · simp only [List.mem_singleton] at hjn
      subst hjn
      refine ⟨now, ?_, by rw [hica]⟩
      rw [hbt, hity]
      exact alookup_aset_self _ _ _

theorem EngineInv_applyOp {s : EngineState} (hInv : EngineInv s) (op : EngineOp) :
    EngineInv (applyOp s op) := by
  cases op with
  | evalOp now bs br sd ts g goal =>
    show EngineInv (evaluate s now bs br sd ts g goal).2
    rcases evaluate_spec s now bs br sd ts g goal with ⟨-, hd⟩ | ⟨ty, -, hr⟩
    · unfold onlyTimersDiffer at hd
      rw [hd]
      exact hInv
    · exact EngineInv_fire hInv hr
  | icebreakerOp now goal =>
    show EngineInv (createIcebreaker s now goal).2
    rcases createIcebreaker_spec s now goal with ⟨-, hd⟩ | hr
    · unfold onlyTimersDiffer at hd
      rw [hd]
      exact hInv
    · exact EngineInv_fire hInv hr
  | pauseOp => exact hInv
  | resumeOp => exact hInv
  | blockerOp b a =>
    show EngineInv (set_blocker s b a)
    unfold set_blocker
    split_ifs <;> exact hInv
  | namesOp names => exact hInv

theorem EngineInv_init (ss : ℚ) (dm : ℤ) (ia di sd : Bool) :
    EngineInv (EngineState.init ss dm ia di sd) := by
  refine ⟨List.Pairwise.nil, ?_, ?_⟩ <;> intro i hi <;>
    simp [EngineState.init] at hi

theorem EngineInv_runOps (s : EngineState) (ops : List EngineOp)
    (hInv : EngineInv s) : EngineInv (runOps s ops) := by
  induction ops generalizing s with
  | nil => exact hInv
  | cons op rest ih => exact ih _ (EngineInv_applyOp hInv op)

/-- C3: over any trace of calls into one engine instance, every pair of
recorded interventions is at least 30 seconds apart, and every pair of the
same type is at least 120 seconds apart. -/
theorem C3_cooldowns (ss : ℚ) (dm : ℤ) (ia di sd : Bool) (ops : List EngineOp) :
    ((runOps (EngineState.init ss dm ia di sd) ops).intervention_history).Pairwise
      (fun a b => 30 ≤ b.created_at - a.created_at ∧
        (a.type = b.type → 120 ≤ b.created_at - a.created_at)) := by
  have hInv := EngineInv_runOps (EngineState.init ss dm ia di sd) ops
    (EngineInv_init ss dm ia di sd)
  refine hInv.1.imp ?_
  intro a b hab
  obtain ⟨h1, h2⟩ := hab
  have e30 : MIN_INTERVENTION_INTERVAL = (30 : ℚ) := rfl
  have e120 : COOLDOWN_PERIOD = (120 : ℚ) := rfl
  constructor
  · rw [e30] at h1
    linarith
  · intro hty
    have := h2 hty
    rw [e120] at this
    linarith

theorem TWInv_fire {s : EngineState} {now : ℚ} {ty : InterventionType}
    {r : Option Intervention × EngineState} (hI : TWInv s)
    (hr : recordedFire ty s now r) : TWInv r.2 := by
  obtain ⟨i, -, hity, -, -, hhist, -, -, hsent⟩ := hr
  obtain ⟨hnd, hcnt⟩ := hI
  by_cases hty : ty = InterventionType.time_warning
  · rw [if_pos hty] at hsent
    obtain ⟨w, hwn, hws⟩ := hsent
    constructor
    · rw [hws, List.nodup_append]
      exact ⟨hnd, List.nodup_singleton w, by simp [hwn]⟩
    · have hone : [i].countP
          (fun j => decide (j.type = InterventionType.time_warning)) = 1 := by
        simp [hity, hty]
      rw [hhist, hws, List.countP_append, hone, List.length_append, hcnt]
      simp
  · rw [if_neg hty] at hsent
    constructor
    · rw [hsent]
      exact hnd
    · rw [hhist, hsent, List.countP_append]
      have hone : [i].countP
          (fun j => decide (j.type = InterventionType.time_warning)) = 0 := by
        simp [hity, hty]
      rw [hone, hcnt]
      omega

theorem TWInv_applyOp {s : EngineState} (hI : TWInv s) (op : EngineOp) :
    TWInv (applyOp s op) := by
  cases op with
  | evalOp now bs br sd ts g goal =>
    show TWInv (evaluate s now bs br sd ts g goal).2
    rcases evaluate_spec s now bs br sd ts g goal with ⟨-, hd⟩ | ⟨ty, -, hr⟩
    · unfold onlyTimersDiffer at hd
      rw [hd]
      exact hI
    · exact TWInv_fire hI hr
  | icebreakerOp now goal =>
    show TWInv (createIcebreaker s now goal).2
    rcases createIcebreaker_spec s now goal with ⟨-, hd⟩ | hr
    · unfold onlyTimersDiffer at hd
      rw [hd]
      exact hI
    · exact TWInv_fire hI hr
  | pauseOp => exact hI
  | resumeOp => exact hI
  | blockerOp b a =>
    show TWInv (set_blocker s b a)
    unfold set_blocker
    split_ifs <;> exact hI
  | namesOp names => exact hI

theorem TWInv_runOps (s : EngineState) (ops : List EngineOp) (hI : TWInv s) :
    TWInv (runOps s ops) := by
  induction ops generalizing s with
  | nil => exact hI
  | cons op rest ih => exact ih _ (TWInv_applyOp hI op)

/-- C6 counterexample: a fresh 2 minute engine sees remaining time at or
below the 300 second threshold on two evaluate ticks (t=60 and t=90), yet
no time warning ever fires for that threshold, because the first-3-minutes
quiet period blocks both; so the threshold does not fire exactly once
regardless of how many ticks observe the condition. -/
theorem C6_counterexample :
    get_time_remaining e6engine 60 ≤ TIME_WARNING_5_MIN ∧
    get_time_remaining e6engine 90 ≤ TIME_WARNING_5_MIN ∧
    (runOps e6engine
      [EngineOp.evalOp 60 "balanced" none none 0 true "",
       EngineOp.evalOp 90 "balanced" none none 0 true ""]).intervention_history = [] ∧
    (runOps e6engine
      [EngineOp.evalOp 60 "balanced" none none 0 true "",
       EngineOp.evalOp 90 "balanced" none none 0 true ""]).time_warnings_sent = [] := by
  refine ⟨?_, ?_, ?_, ?_⟩ <;>
    norm_num +decide [runOps, applyOp, evaluate, checkEscalation, checkSevereBalance,
      checkTimeWarning, checkSilence, checkMildBalance, checkGoalDrift, canIntervene,
      globalCooldownActive, typeCooldownActive, silenceTruthy, get_session_elapsed,
      get_time_remaining, EngineState.init, e6engine, createIntervention, alookup,
      aset, MIN_INTERVENTION_INTERVAL, COOLDOWN_PERIOD, SILENCE_THRESHOLD,
      FIRST_MINUTES_QUIET, GOAL_DRIFT_THRESHOLD, TIME_WARNING_5_MIN,
      TIME_WARNING_2_MIN, TIME_WARNING_1_MIN, TENSION_THRESHOLD, TENSION_DURATION]

/-- C6, amended: over any trace of calls into one engine instance, each
time-warning threshold fires at most once per session lifetime: the
sent-thresholds list counts each threshold at most once, and time-warning
interventions are in bijection with sent thresholds, so once a threshold
has fired no later call fires it again. -/
theorem C6_time_warning_at_most_once (ss : ℚ) (dm : ℤ) (ia di sd : Bool)
    (ops : List EngineOp) (w : ℚ) :
    ((runOps (EngineState.init ss dm ia di sd) ops).time_warnings_sent).count w ≤ 1 ∧
    (runOps (EngineState.init ss dm ia di sd) ops).intervention_history.countP
        (fun i => decide (i.type = InterventionType.time_warning)) =
      ((runOps (EngineState.init ss dm ia di sd) ops).time_warnings_sent).length := by
  have hI : TWInv (runOps (EngineState.init ss dm ia di sd) ops) := by
    apply TWInv_runOps
    refine ⟨List.nodup_nil, ?_⟩
    simp [EngineState.init]
  exact ⟨List.nodup_iff_count_le_one.mp hI.1 w, hI.2⟩

theorem remainingSeconds_nonneg (d : ℤ) (e : ℚ) : 0 ≤ remainingSeconds d e :=
  le_max_right _ _

theorem elapsed_seconds_nonneg (st : SessionTimerState) (now : ℚ) :
    0 ≤ st.elapsed_seconds now :=
  le_max_right _ _

theorem checkEscalation_zero (s : EngineState) (now : ℚ) :
    checkEscalation s now 0 = (none, { s with tension_start := none }) := by
  unfold checkEscalation
  rw [if_neg (by norm_num [TENSION_THRESHOLD])]

theorem checkGoalDrift_true (s : EngineState) (now : ℚ) (goal : String) :
    checkGoalDrift s now true goal = (none, { s with goal_drift_start := none }) := by
  unfold checkGoalDrift
  rw [if_neg (by simp)]

/-- With tension_score 0 and is_on_goal true, the only types evaluate can
return are balance, time_warning and silence. -/
theorem evaluate_scheduler_types (s : EngineState) (now : ℚ) (bs : String)
    (br : Option BalanceInput) (sd : Option ℚ) (goal : String) (i : Intervention)
    (h : (evaluate s now bs br sd 0 true goal).1 = some i) :
    i.type = InterventionType.balance ∨ i.type = InterventionType.time_warning ∨
      i.type = InterventionType.silence := by
  unfold evaluate at h
  rw [checkEscalation_zero] at h
  dsimp only at h
  rcases hS : checkSevereBalance { s with tension_start := none } now bs br with ⟨o2, s2⟩
  have hspec2 := checkSevereBalance_spec { s with tension_start := none } now bs br
  rw [hS] at hspec2 h
  cases o2 with
  | some j =>
    dsimp only at h
    rw [Option.some_inj] at h
    subst h
    rcases hspec2 with ⟨habs, -⟩ | ⟨j2, hj2, hty2, -⟩
    · simp at habs
    · simp only [Prod.fst] at hj2
      rw [Option.some_inj] at hj2
      subst hj2
      exact Or.inl hty2
  | none =>
    dsimp only at h
    rcases hT : checkTimeWarning s2 now goal with ⟨o3, s3⟩
    have hspec3 := checkTimeWarning_spec s2 now goal
    rw [hT] at hspec3 h
    cases o3 with
    | some j =>
      dsimp only at h
      rw [Option.some_inj] at h
      subst h
      rcases hspec3 with ⟨habs, -⟩ | ⟨j2, hj2, hty2, -⟩
      · simp at habs
      · simp only [Prod.fst] at hj2
        rw [Option.some_inj] at hj2
        subst hj2
        exact Or.inr (Or.inl hty2)
    | none =>
      dsimp only at h
      rcases hSi : (if s3.silence_detection && silenceTruthy sd then
          checkSilence s3 now (sd.getD 0)
        else (none, s3)) with ⟨o4, s4⟩
      have hspec4 : checkSpec InterventionType.silence s3 now (o4, s4) := by
        rw [← hSi]
        split_ifs with hsg
        · exact checkSilence_spec s3 now (sd.getD 0)
        · exact Or.inl ⟨rfl, onlyTimersDiffer_refl s3⟩
      rw [hSi] at h
      cases o4 with
      | some j =>
        dsimp only at h
        rw [Option.some_inj] at h
        subst h
        rcases hspec4 with ⟨habs, -⟩ | ⟨j2, hj2, hty2, -⟩
        · simp at habs
        · simp only [Prod.fst] at hj2
          rw [Option.some_inj] at hj2
          subst hj2
          exact Or.inr (Or.inr hty2)
      | none =>
        dsimp only at h
        rcases hM : checkMildBalance s4 now bs br with ⟨o5, s5⟩
        have hspec5 := checkMildBalance_spec s4 now bs br
        rw [hM] at hspec5 h
        cases o5 with
        | some j =>
          dsimp only at h
          rw [Option.some_inj] at h
          subst h
          rcases hspec5 with ⟨habs, -⟩ | ⟨j2, hj2, hty2, -⟩
          · simp at habs
          · simp only [Prod.fst] at hj2
            rw [Option.some_inj] at hj2
            subst hj2
            exact Or.inl hty2
        | none =>
          dsimp only at h
          rw [checkGoalDrift_true] at h
          dsimp only at h
          exact absurd h (by simp)

/-- The intervention events emitted by one engine step: none, or exactly one
whose type is balance, time_warning or silence. -/
theorem engineStep_events (rt : RuntimeState) (now : ℚ)
    (snapshot : Option BalanceResult) :
    (engineStep rt now snapshot).1 = [] ∨
    ∃ i, (engineStep rt now snapshot).1 = [SessionEvent.intervention i] ∧
      (i.type = InterventionType.balance ∨ i.type = InterventionType.time_warning ∨
       i.type = InterventionType.silence) := by
  unfold engineStep
  cases he : rt.engine with
  | none => exact Or.inl rfl
  | some eng =>
    dsimp only
    rcases hev : evaluate eng now (schedulerBalanceArgs rt now snapshot).1
        (schedulerBalanceArgs rt now snapshot).2.1
        (schedulerSilenceDuration rt now) 0 true (sessionGoalOf rt) with ⟨oi, eng2⟩
    cases oi with
    | some i =>
      refine Or.inr ⟨i, rfl, ?_⟩
      apply evaluate_scheduler_types _ _ _ _ _ _ i
      rw [hev]
    | none => exact Or.inl rfl

/-- Every event emitted by one tick is free of negative remaining time and
is never an escalation or goal-drift intervention. -/
theorem tick_event_flags (d : ℤ) (now : ℚ) (rt : RuntimeState) :
    ∀ ev ∈ (tick d now rt).1,
      hasNegativeRemaining ev = false ∧ isEscalationOrDrift ev = false := by
  intro ev hev
  unfold tick at hev
  cases htm : rt.timer with
  | none =>
    rw [htm] at hev
    simp at hev
  | some st =>
    rw [htm] at hev
    dsimp only at hev
    split_ifs at hev with hp
    · simp at hev
    · dsimp only at hev
      rcases List.mem_cons.mp hev with hhead | htail
      · subst hhead
        constructor
        · simp only [hasNegativeRemaining]
          exact decide_eq_false (not_lt.mpr (remainingSeconds_nonneg _ _))
        · rfl
      · rcases List.mem_append.mp htail with hbal | hint
        · cases hsnap : balanceSnapshot rt now with
          | none =>
            rw [hsnap] at hbal
            simp at hbal
          | some b =>
            rw [hsnap] at hbal
            dsimp only at hbal
            split_ifs at hbal
            · simp at hbal
            · simp only [List.mem_singleton] at hbal
              subst hbal
              exact ⟨rfl, rfl⟩
        · rcases engineStep_events rt now (balanceSnapshot rt now) with h0 | ⟨i, h1, hty⟩
          · rw [h0] at hint
            simp at hint
          · rw [h1] at hint
            simp only [List.mem_singleton] at hint
            subst hint
            refine ⟨rfl, ?_⟩
            rcases hty with h | h | h <;> simp [isEscalationOrDrift, h]

/-- Every event of a whole scheduler run is free of negative remaining time
and is never an escalation or goal-drift intervention. -/
theorem runLoop_flags (d : ℤ) (nows : List ℚ) (rt : RuntimeState) :
    ∀ ev ∈ runLoop d nows rt,
      hasNegativeRemaining ev = false ∧ isEscalationOrDrift ev = false := by
  induction nows generalizing rt with
  | nil =>
    intro ev hev
    simp [runLoop] at hev
  | cons n rest ih =>
    intro ev hev
    unfold runLoop at hev
    dsimp only at hev
    rcases List.mem_append.mp hev with h1 | h2
    · exact tick_event_flags d n rt ev h1
    · split_ifs at h2 with hc
      · exact ih _ ev h2
      · simp at h2

/-- C10: the scheduler loop calls evaluate with tension_score 0 and
is_on_goal true on every tick, so no run of the loop ever emits an
intervention event of type escalation or goal_drift. -/
theorem C10_no_escalation_or_drift (duration_minutes : ℤ) (nows : List ℚ)
    (rt : RuntimeState) :
    (runSessionTimer duration_minutes nows rt).countP isEscalationOrDrift = 0 := by
  rw [List.countP_eq_zero]
  intro ev hev
  rw [(runLoop_flags (durationSecondsOf duration_minutes) nows rt ev hev).2]
  simp

/-- C8: no time_remaining event of any scheduler run carries a negative
totalSecondsRemaining; an unpaused tick whose remaining computes to zero
terminates the loop that same tick, after emitting its time_remaining event
first; and a non-positive configured duration yields remaining zero and
natural same-tick termination on the first unpaused tick. -/
theorem C8_remaining_nonneg_and_termination (duration_minutes : ℤ) (nows : List ℚ)
    (rt : RuntimeState) (dsec : ℤ) (now : ℚ) (st : SessionTimerState) :
    (runSessionTimer duration_minutes nows rt).countP hasNegativeRemaining = 0 ∧
    (rt.timer = some st → st.paused_at = none →
      remainingSeconds dsec (st.elapsed_seconds now) = 0 →
      (tick dsec now rt).2.1 = false ∧
      ∃ pc rest, (tick dsec now rt).1 =
        SessionEvent.time_remaining 0 0 0 pc :: rest) ∧
    (duration_minutes ≤ 0 → rt.timer = some st → st.paused_at = none →
      (tick (durationSecondsOf duration_minutes) now rt).2.1 = false ∧
      ∃ pc rest, (tick (durationSecondsOf duration_minutes) now rt).1 =
        SessionEvent.time_remaining 0 0 0 pc :: rest) := by
  have hterm : ∀ d : ℤ, rt.timer = some st → st.paused_at = none →
      remainingSeconds d (st.elapsed_seconds now) = 0 →
      (tick d now rt).2.1 = false ∧
      ∃ pc rest, (tick d now rt).1 =
        SessionEvent.time_remaining 0 0 0 pc :: rest := by
    intro d htm hpn hrem
    have hps : st.paused_at.isSome = false := by
      rw [hpn]
      rfl
    have hcond : ¬ (st.paused_at.isSome = true) := by
      rw [hps]
      simp
    constructor
    · unfold tick
      rw [htm]
      dsimp only
      rw [if_neg hcond]
      dsimp only
      rw [hrem]
      simp
    · unfold tick
      rw [htm]
      dsimp only
      rw [if_neg hcond]
      dsimp only
      rw [hrem]
      exact ⟨percentComplete d (st.elapsed_seconds now), _, rfl⟩
  refine ⟨?_, hterm dsec, ?_⟩
  · rw [List.countP_eq_zero]
    intro ev hev
    rw [(runLoop_flags (durationSecondsOf duration_minutes) nows rt ev hev).1]
    simp
  · intro hdm htm hpn
    apply hterm _ htm hpn
    have hd0 : durationSecondsOf duration_minutes = 0 := by
      unfold durationSecondsOf
      have : max duration_minutes 0 = 0 := max_eq_right hdm
      rw [this]
      ring
    rw [hd0]
    unfold remainingSeconds
    have h1 : 0 ≤ ratTrunc (st.elapsed_seconds now) :=
      ratTrunc_nonneg (elapsed_seconds_nonneg st now)
    have h2 : (0 : ℤ) - ratTrunc (st.elapsed_seconds now) ≤ 0 := by linarith
    exact max_eq_right h2

/-- C8 witness: a zero-duration session with a live unpaused timer
terminates on its first tick with a zero remaining event. -/
theorem C8_witness :
    (tick (durationSecondsOf 0) 5 rt8).2.1 = false ∧
    ∃ pc rest, (tick (durationSecondsOf 0) 5 rt8).1 =
      SessionEvent.time_remaining 0 0 0 pc :: rest :=
  (C8_remaining_nonneg_and_termination 0 [] rt8 0 5
    { started_at := 0, paused_at := none, paused_seconds := 0 }).2.2
    (by norm_num) rfl rfl

end Diadi

